import Mathlib

/-! Authenticated request gateway (`frontend/src/utils/api.js`) and its callers

A shallow embedding of the token storage, `refreshSession`, `apiRequest` and the
`authAPI` convenience calls, together with the slice of ECMAScript they rely on:
JSON values, truthiness, `String(v)`, property access, `JSON.stringify`,
`localStorage`, and `fetch` against an arbitrary backend.
-/

namespace Gateway

/-! ## JavaScript values -/

/-- A JavaScript value as produced by `response.json()` or by property access on such a
value.  A number is carried by its canonical rendering (the result of `String(n)`), so
`"0"` is the number zero.  An object is its list of own properties in insertion order. -/
inductive JVal where
  | undefined : JVal
  | null : JVal
  | bool (b : Bool) : JVal
  | num (text : String) : JVal
  | str (s : String) : JVal
  | arr (items : List JVal) : JVal
  | obj (fields : List (String × JVal)) : JVal

/-- What a JavaScript computation throws (or what a promise rejects with). -/
inductive Thrown where
  /-- `new Error(message)` -/
  | error (message : String) : Thrown
  /-- a `TypeError`, as raised by reading a property of `null` or `undefined` -/
  | typeError : Thrown
  /-- the `SyntaxError` with which `response.json()` rejects on a malformed body -/
  | syntaxError : Thrown
  /-- the rejection of `fetch` when the transport fails -/
  | networkError : Thrown
  deriving DecidableEq, Repr

/-- ECMAScript `ToBoolean`. -/
def truthy : JVal → Bool
  | .undefined => false
  | .null => false
  | .bool b => b
  | .num text => text != "0"
  | .str s => s != ""
  | .arr _ => true
  | .obj _ => true

mutual
/-- ECMAScript `ToString` (what `String(v)`, a template literal and
`localStorage.setItem` apply to a value) of a value in which no object has an own
property named `toString`: such an object is rendered `[object Object]`. On strings,
numbers, booleans, `null` and `undefined` it is the conversion of the platform without
any proviso. -/
def toStr : JVal → String
  | .undefined => "undefined"
  | .null => "null"
  | .bool true => "true"
  | .bool false => "false"
  | .num text => text
  | .str s => s
  | .arr items => joinItems items
  | .obj _ => "[object Object]"
/-- The text of `Array.prototype.join(",")`: `null` and `undefined` render as empty. -/
def joinItems : List JVal → String
  | [] => ""
  | [v] => itemStr v
  | v :: rest => itemStr v ++ "," ++ joinItems rest
/-- One element of a joined array. -/
def itemStr : JVal → String
  | .undefined => ""
  | .null => ""
  | .bool true => "true"
  | .bool false => "false"
  | .num text => text
  | .str s => s
  | .arr items => joinItems items
  | .obj _ => "[object Object]"
end

/-- Own-property lookup in an object's property list. -/
def lookupField (k : String) : List (String × JVal) → JVal
  | [] => .undefined
  | (k', v) :: rest => if k' = k then v else lookupField k rest

/-- Property read `v.k` for the property names the program uses (`success`, `user`,
`session`, `access_token`, `refresh_token`, `error`, `message`, `email`, `password`,
`referralCode`, `fullName`): a `TypeError` on
`null` and `undefined`, the own property on an object, `undefined` elsewhere. -/
def getProp (v : JVal) (k : String) : Except Thrown JVal :=
  match v with
  | .undefined => .error .typeError
  | .null => .error .typeError
  | .obj fields => .ok (lookupField k fields)
  | _ => .ok .undefined

/-- Optional chaining `v?.k`. -/
def getPropOpt (v : JVal) (k : String) : JVal :=
  match v with
  | .obj fields => lookupField k fields
  | _ => .undefined

/-- The operator `a || b`. -/
def jsOr (a b : JVal) : JVal := if truthy a then a else b

/-! ## `JSON.stringify` -/

/-- Lower-case hexadecimal digit of `n < 16`. -/
def hexDigit (n : Nat) : Char :=
  if n < 10 then Char.ofNat (48 + n) else Char.ofNat (87 + n)

/-- The escape of one character inside a JSON string literal (`QuoteJSONString`). -/
def escapeChar (c : Char) : List Char :=
  let bs := Char.ofNat 92
  if c = Char.ofNat 34 then [bs, Char.ofNat 34]
  else if c = bs then [bs, bs]
  else if c = Char.ofNat 8 then [bs, Char.ofNat 98]
  else if c = Char.ofNat 12 then [bs, Char.ofNat 102]
  else if c = Char.ofNat 10 then [bs, Char.ofNat 110]
  else if c = Char.ofNat 13 then [bs, Char.ofNat 114]
  else if c = Char.ofNat 9 then [bs, Char.ofNat 116]
  else if c.toNat < 32 then
    [bs, Char.ofNat 117, Char.ofNat 48, Char.ofNat 48, hexDigit (c.toNat / 16), hexDigit (c.toNat % 16)]
  else [c]

/-- A string as a JSON string literal. -/
def quote (s : String) : String :=
  String.mk ([Char.ofNat 34] ++ (s.data.flatMap escapeChar) ++ [Char.ofNat 34])

mutual
/-- The text of `JSON.stringify(v)`; `none` is the result `undefined`. -/
def jsonStringify : JVal → Option String
  | .undefined => none
  | .null => some "null"
  | .bool true => some "true"
  | .bool false => some "false"
  | .num text => some text
  | .str s => some (quote s)
  | .arr items => some ("[" ++ String.intercalate "," (stringifyItems items) ++ "]")
  | .obj fields => some ("\x7b" ++ String.intercalate "," (stringifyFields fields) ++ "\x7d")
/-- The elements of an array: an `undefined` element is written `null`. -/
def stringifyItems : List JVal → List String
  | [] => []
  | v :: rest => (jsonStringify v).getD "null" :: stringifyItems rest
/-- The members of an object: a property whose value is `undefined` is left out. -/
def stringifyFields : List (String × JVal) → List String
  | [] => []
  | (k, v) :: rest =>
    match jsonStringify v with
    | none => stringifyFields rest
    | some t => (quote k ++ ":" ++ t) :: stringifyFields rest
end

/-! ## A reader for JSON text

`JSON.parse` belongs to the platform; the functions that call it take it as a parameter.
The reader below is the instance used in the concrete runs.  It keeps a number token as
written, so it agrees with `JSON.parse` on the texts `jsonStringify` writes. -/

/-- Drop leading JSON white space. -/
def skipWs : List Char → List Char
  | [] => []
  | c :: rest =>
    if c = Char.ofNat 32 ∨ c = Char.ofNat 10 ∨ c = Char.ofNat 13 ∨ c = Char.ofNat 9 then
      skipWs rest
    else c :: rest

/-- Strip the literal `lit` from the front of the input. -/
def stripLit : List Char → List Char → Option (List Char)
  | [], cs => some cs
  | _ :: _, [] => none
  | l :: lit, c :: cs => if l = c then stripLit lit cs else none

/-- Value of a hexadecimal digit. -/
def hexValue (c : Char) : Option Nat :=
  let n := c.toNat
  if 48 ≤ n ∧ n ≤ 57 then some (n - 48)
  else if 97 ≤ n ∧ n ≤ 102 then some (n - 87)
  else if 65 ≤ n ∧ n ≤ 70 then some (n - 55)
  else none

/-- The character a one-letter escape stands for. -/
def unescape (c : Char) : Option Char :=
  if c = Char.ofNat 34 then some (Char.ofNat 34)
  else if c = Char.ofNat 92 then some (Char.ofNat 92)
  else if c = Char.ofNat 47 then some (Char.ofNat 47)
  else if c = Char.ofNat 98 then some (Char.ofNat 8)
  else if c = Char.ofNat 102 then some (Char.ofNat 12)
  else if c = Char.ofNat 110 then some (Char.ofNat 10)
  else if c = Char.ofNat 114 then some (Char.ofNat 13)
  else if c = Char.ofNat 116 then some (Char.ofNat 9)
  else none

/-- Read a string literal after its opening quote; `acc` holds the characters read so
far, last first. -/
def readString : Nat → List Char → List Char → Option (String × List Char)
  | 0, _, _ => none
  | _ + 1, _, [] => none
  | n + 1, acc, c :: rest =>
    if c = Char.ofNat 34 then some (String.mk acc.reverse, rest)
    else if c = Char.ofNat 92 then
      match rest with
      | [] => none
      | e :: rest' =>
        if e = Char.ofNat 117 then
          match rest' with
          | h1 :: h2 :: h3 :: h4 :: rest'' =>
            match hexValue h1, hexValue h2, hexValue h3, hexValue h4 with
            | some a, some b, some c', some d =>
              readString n (Char.ofNat (((a * 16 + b) * 16 + c') * 16 + d) :: acc) rest''
            | _, _, _, _ => none
          | _ => none
        else
          match unescape e with
          | some ch => readString n (ch :: acc) rest'
          | none => none
    else if c.toNat < 32 then none
    else readString n (c :: acc) rest

/-- A character of a number token. -/
def isNumChar (c : Char) : Bool :=
  (48 ≤ c.toNat && c.toNat ≤ 57) || c = Char.ofNat 45 || c = Char.ofNat 43 ||
    c = Char.ofNat 46 || c = Char.ofNat 101 || c = Char.ofNat 69

mutual
/-- Read one JSON value, with `fuel` bounding the depth and length of what is read. -/
def readValue : Nat → List Char → Option (JVal × List Char)
  | 0, _ => none
  | n + 1, cs =>
    match skipWs cs with
    | [] => none
    | c :: rest =>
      if c = Char.ofNat 34 then
        match readString (rest.length + 1) [] rest with
        | some (s, r) => some (.str s, r)
        | none => none
      else if c = Char.ofNat 91 then
        match skipWs rest with
        | [] => none
        | d :: r => if d = Char.ofNat 93 then some (.arr [], r) else
          match readItems n (d :: r) with
          | some (vs, r') => some (.arr vs, r')
          | none => none
      else if c = Char.ofNat 123 then
        match skipWs rest with
        | [] => none
        | d :: r => if d = Char.ofNat 125 then some (.obj [], r) else
          match readFields n (d :: r) with
          | some (fs, r') => some (.obj fs, r')
          | none => none
      else if isNumChar c then
        some (.num (String.mk ((c :: rest).takeWhile isNumChar)),
          (c :: rest).dropWhile isNumChar)
      else
        match stripLit "null".data (c :: rest) with
        | some r => some (.null, r)
        | none =>
          match stripLit "true".data (c :: rest) with
          | some r => some (.bool true, r)
          | none =>
            match stripLit "false".data (c :: rest) with
            | some r => some (.bool false, r)
            | none => none
/-- Read the elements of an array up to and including the closing bracket. -/
def readItems : Nat → List Char → Option (List JVal × List Char)
  | 0, _ => none
  | n + 1, cs =>
    match readValue n cs with
    | none => none
    | some (v, r) =>
      match skipWs r with
      | [] => none
      | d :: r' =>
        if d = Char.ofNat 93 then some ([v], r')
        else if d = Char.ofNat 44 then
          match readItems n r' with
          | some (vs, r'') => some (v :: vs, r'')
          | none => none
        else none
/-- Read the members of an object up to and including the closing brace. -/
def readFields : Nat → List Char → Option (List (String × JVal) × List Char)
  | 0, _ => none
  | n + 1, cs =>
    match skipWs cs with
    | [] => none
    | q :: r0 =>
      if q = Char.ofNat 34 then
        match readString (r0.length + 1) [] r0 with
        | none => none
        | some (k, r1) =>
          match skipWs r1 with
          | [] => none
          | colon :: r2 =>
            if colon = Char.ofNat 58 then
              match readValue n r2 with
              | none => none
              | some (v, r3) =>
                match skipWs r3 with
                | [] => none
                | d :: r4 =>
                  if d = Char.ofNat 125 then some ([(k, v)], r4)
                  else if d = Char.ofNat 44 then
                    match readFields n r4 with
                    | some (fs, r5) => some ((k, v) :: fs, r5)
                    | none => none
                  else none
            else none
      else none
end

/-- The reader as a `JSON.parse`: a `SyntaxError` unless the whole text is one value. -/
def jsonParse (text : String) : Except Thrown JVal :=
  match readValue (text.length + 1) text.data with
  | some (v, rest) => if skipWs rest = [] then .ok v else .error .syntaxError
  | none => .error .syntaxError

/-! ## `localStorage`, the network and the page -/

/-- The `localStorage` of the page: each key holds a string or is absent. -/
abbrev Storage := String → Option String

/-- The store of `localStorage.setItem(k, v)`. -/
def Storage.setItem (s : Storage) (k v : String) : Storage :=
  fun k' => if k' = k then some v else s k'

/-- The store of `localStorage.removeItem(k)`. -/
def Storage.removeItem (s : Storage) (k : String) : Storage :=
  fun k' => if k' = k then none else s k'

/-- A plain headers object: own properties in insertion order. -/
abbrev Headers := List (String × String)

/-- Property assignment `h[k] = v` on a headers object. -/
def setHeader (k v : String) : Headers → Headers
  | [] => [(k, v)]
  | (k', v') :: rest => if k' = k then (k', v) :: rest else (k', v') :: setHeader k v rest

/-- Property read `h[k]` on a headers object (`none` is `undefined`). -/
def getHeader (k : String) : Headers → Option String
  | [] => none
  | (k', v) :: rest => if k' = k then some v else getHeader k rest

/-- Object spread `\x7b ...base, ...extra \x7d` of headers objects. -/
def spreadHeaders (base extra : Headers) : Headers :=
  extra.foldl (fun h kv => setHeader kv.1 kv.2 h) base

/-- A request body: a string (the callers pass `JSON.stringify(...)`) or a `FormData`. -/
inductive Body where
  | text (s : String) : Body
  | formData (parts : List (String × String)) : Body
  deriving DecidableEq, Repr

/-- The `options` argument of `apiRequest`; an absent property is `none`. -/
structure Options where
  method : Option String := none
  headers : Option Headers := none
  body : Option Body := none
  deriving DecidableEq, Repr

/-- The init object handed to `fetch`. -/
structure Config where
  method : Option String
  headers : Headers
  body : Option Body
  deriving DecidableEq, Repr

/-- One call `fetch(url, config)`. -/
structure Request where
  url : String
  config : Config
  deriving DecidableEq, Repr

/-- A resolved `fetch`: the status and the parsed body (`none` when the body is not
valid JSON, so that `response.json()` rejects). -/
structure Response where
  status : Nat
  body : Option JVal

/-- The field `response.ok`. -/
def Response.ok (r : Response) : Bool := 200 ≤ r.status && r.status ≤ 299

/-- The backend and the transport: given every request sent so far in this run (the
current one last) it resolves with a response, or rejects (`none`). -/
abbrev Backend := List Request → Option Response

/-- Everything a call can read or change: `localStorage`, `window.location.href`
and the requests issued so far (oldest first). -/
structure World where
  localStorage : Storage
  href : String
  sent : List Request

/-- An `async` function body: it runs on a world and either returns or throws, leaving
the world it reached. -/
abbrev Js (α : Type) := World → Except Thrown α × World

/-- Sequencing of two steps; a throw skips the rest. -/
def Js.bind {α β : Type} (m : Js α) (f : α → Js β) : Js β := fun w =>
  match m w with
  | (.ok a, w') => f a w'
  | (.error e, w') => (.error e, w')

/-- A step that returns `a` and changes nothing. -/
def Js.pure {α : Type} (a : α) : Js α := fun w => (.ok a, w)

instance : Monad Js where
  pure := Js.pure
  bind := Js.bind

/-- The statement `throw e`. -/
def jsThrow (e : Thrown) {α : Type} : Js α := fun w => (.error e, w)

/-- The statement `try body catch (error) handler`. -/
def jsTry {α : Type} (body : Js α) (handler : Thrown → Js α) : Js α := fun w =>
  match body w with
  | (.ok a, w') => (.ok a, w')
  | (.error e, w') => handler e w'

/-- The statement `try body finally cleanup`: the cleanup runs whether the body returned
or threw, and the outcome of the body stands unless the cleanup itself throws. -/
def jsFinally {α : Type} (body : Js α) (cleanup : Js Unit) : Js α := fun w =>
  match body w with
  | (res, w') =>
    match cleanup w' with
    | (.ok _, w'') => (res, w'')
    | (.error e, w'') => (.error e, w'')

/-- Lift of a computation that touches no state. -/
def liftExcept {α : Type} : Except Thrown α → Js α
  | .ok a => pure a
  | .error e => jsThrow e

/-- The call `localStorage.getItem(k)`. -/
def getItem (k : String) : Js (Option String) := fun w => (.ok (w.localStorage k), w)

/-- The call `localStorage.setItem(k, v)`. -/
def setItem (k v : String) : Js Unit := fun w =>
  (.ok (), { w with localStorage := w.localStorage.setItem k v })

/-- The call `localStorage.removeItem(k)`. -/
def removeItem (k : String) : Js Unit := fun w =>
  (.ok (), { w with localStorage := w.localStorage.removeItem k })

/-- The assignment `window.location.href = url`. -/
def setHref (url : String) : Js Unit := fun w => (.ok (), { w with href := url })

/-- The call `fetch(url, config)`, awaited. -/
def fetch (net : Backend) (url : String) (config : Config) : Js Response := fun w =>
  let sent := w.sent ++ [{ url := url, config := config }]
  match net sent with
  | some r => (.ok r, { w with sent := sent })
  | none => (.error .networkError, { w with sent := sent })

/-- The call `response.json()`, awaited. -/
def Response.json (r : Response) : Js JVal :=
  match r.body with
  | some v => pure v
  | none => jsThrow .syntaxError

/-! ## `frontend/src/utils/api.js` -/

/-- The constant `API_BASE_URL`. -/
def API_BASE_URL : String := "http://localhost:5001"

/-- Truthiness of what `localStorage.getItem` returns (`null` or a string). -/
def itemTruthy : Option String → Bool
  | none => false
  | some s => s != ""

/-- The text a template literal gives for what `localStorage.getItem` returns. -/
def templateText : Option String → String
  | none => "null"
  | some s => s

/-- `getToken`. -/
def getToken : Js (Option String) := getItem "auth_token"

/-- `setToken`: `setItem` stores the string conversion of its argument. -/
def setToken (token : JVal) : Js Unit := setItem "auth_token" (toStr token)

/-- `removeToken`. -/
def removeToken : Js Unit := removeItem "auth_token"

/-- `getRefreshToken`. -/
def getRefreshToken : Js (Option String) := getItem "refresh_token"

/-- `setRefreshToken`. -/
def setRefreshToken (token : JVal) : Js Unit := setItem "refresh_token" (toStr token)

/-- `removeRefreshToken`. -/
def removeRefreshToken : Js Unit := removeItem "refresh_token"

/-- `setUserData`: stores `JSON.stringify(data)` (the string `"undefined"` when that
is `undefined`). -/
def setUserData (data : JVal) : Js Unit :=
  setItem "user_data" ((jsonStringify data).getD "undefined")

/-- `removeUserData`. -/
def removeUserData : Js Unit := removeItem "user_data"

/-- `isAuthenticated`. -/
def isAuthenticated : Js Bool := do
  let token ← getToken
  pure (itemTruthy token)

/-- The object literal `\x7b success: false \x7d`. -/
def failure : JVal := .obj [("success", .bool false)]

/-- The object literal `\x7b success: true, user \x7d`. -/
def successWith (user : JVal) : JVal := .obj [("success", .bool true), ("user", user)]

/-- The init object of the refresh call. -/
def refreshConfig (refreshToken : String) : Config :=
  { method := some "POST"
    headers := [("Content-Type", "application/json")]
    body := (jsonStringify (.obj [("refresh_token", .str refreshToken)])).map Body.text }

/-- `refreshSession` (api.js 44-71). -/
def refreshSession (net : Backend) : Js JVal := do
  let refreshToken ← getRefreshToken
  if !itemTruthy refreshToken then
    pure failure
  else
    jsTry
      (do
        let response ← fetch net (API_BASE_URL ++ "/auth/refresh")
          (refreshConfig (templateText refreshToken))
        if response.ok then
          let data ← response.json
          let success ← liftExcept (getProp data "success")
          if truthy success then
            let user ← liftExcept (getProp data "user")
            let session := getPropOpt user "session"
            if truthy session then
              let accessToken ← liftExcept (getProp session "access_token")
              setToken accessToken
              let newRefreshToken ← liftExcept (getProp session "refresh_token")
              setRefreshToken newRefreshToken
              setUserData user
              pure (successWith user)
            else
              pure failure
          else
            pure failure
        else
          pure failure)
      (fun _ => pure failure)

/-- The `config` object built at api.js 77-87. -/
def buildConfig (options : Options) (token : Option String) : Config :=
  let config : Config :=
    { method := options.method
      headers := spreadHeaders [("Content-Type", "application/json")] (options.headers.getD [])
      body := options.body }
  if itemTruthy token then
    { config with headers := setHeader "Authorization" ("Bearer " ++ templateText token) config.headers }
  else
    config

/-- `apiRequest` (api.js 74-118). -/
def apiRequest (net : Backend) (endpoint : String) (options : Options) : Js JVal := do
  let token ← getToken
  let config := buildConfig options token
  let response ← fetch net (API_BASE_URL ++ endpoint) config
  let response ←
    if response.status = 401 then do
      let refreshResult ← refreshSession net
      let success ← liftExcept (getProp refreshResult "success")
      if truthy success then
        let token ← getToken
        let config := { config with
          headers := setHeader "Authorization" ("Bearer " ++ templateText token) config.headers }
        fetch net (API_BASE_URL ++ endpoint) config
      else
        removeToken
        removeRefreshToken
        removeUserData
        setHref "/auth"
        jsThrow (.error "Session expired")
    else
      pure response
  let data ← response.json
  if !response.ok then
    let error ← liftExcept (getProp data "error")
    jsThrow (.error (toStr (jsOr error (.str "Request failed"))))
  else
    pure data

/-- `authAPI.logout` (api.js 162-166). -/
def authAPI.logout : Js Unit := do
  removeToken
  removeRefreshToken
  removeUserData

/-- The init object of the login call. -/
def loginConfig (email password : JVal) : Config :=
  { method := some "POST"
    headers := [("Content-Type", "application/json")]
    body := (jsonStringify (.obj [("email", email), ("password", password)])).map Body.text }

/-- `authAPI.login` (api.js 122-139). -/
def authAPI.login (net : Backend) (email password : JVal) : Js JVal := do
  let response ← fetch net (API_BASE_URL ++ "/auth/login") (loginConfig email password)
  let data ← response.json
  let accepted ←
    if response.ok then do
      let success ← liftExcept (getProp data "success")
      if truthy success then do
        let user ← liftExcept (getProp data "user")
        pure (truthy (getPropOpt user "session"))
      else
        pure false
    else
      pure false
  if accepted then
    let user ← liftExcept (getProp data "user")
    let session := getPropOpt user "session"
    let accessToken ← liftExcept (getProp session "access_token")
    setToken accessToken
    let newRefreshToken ← liftExcept (getProp session "refresh_token")
    setRefreshToken newRefreshToken
    setUserData user
    pure (successWith user)
  else
    let error ← liftExcept (getProp data "error")
    pure (.obj [("success", .bool false), ("error", jsOr error (.str "Login failed"))])

/-- `getUserData` (api.js 23-26).  `JSON.parse` is the platform's and is taken as the
parameter `parse`. -/
def getUserData (parse : String → Except Thrown JVal) : Js JVal := do
  let data ← getItem "user_data"
  if itemTruthy data then
    liftExcept (parse (templateText data))
  else
    pure .null

/-- `authAPI.signup` (api.js 141-160). -/
def authAPI.signup (net : Backend) (signupData : JVal) : Js JVal := do
  let email ← liftExcept (getProp signupData "email")
  let password ← liftExcept (getProp signupData "password")
  let referralCode ← liftExcept (getProp signupData "referralCode")
  let fullName ← liftExcept (getProp signupData "fullName")
  let response ← fetch net (API_BASE_URL ++ "/auth/signup")
    { method := some "POST"
      headers := [("Content-Type", "application/json")]
      body := (jsonStringify (.obj [("email", email), ("password", password),
        ("referral_code", referralCode), ("full_name", fullName)])).map Body.text }
  let data ← response.json
  if response.ok then
    let message ← liftExcept (getProp data "message")
    pure (.obj [("success", .bool true), ("message", message)])
  else
    let error ← liftExcept (getProp data "error")
    pure (.obj [("success", .bool false), ("error", jsOr error (.str "Signup failed"))])

/-- `profileAPI.uploadResume` (api.js 202-216); the `FormData` holds the one part
`resume` with the file. -/
def profileAPI.uploadResume (net : Backend) (file : String) : Js JVal := do
  let formData := Body.formData [("resume", file)]
  let token ← getToken
  let response ← fetch net (API_BASE_URL ++ "/api/resume/upload")
    { method := some "POST"
      headers := [("Authorization", "Bearer " ++ templateText token)]
      body := some formData }
  response.json

/-! ## `frontend-html-deprecated/scripts/auth.js` -/

/-- The constant `API_BASE_URL` of auth.js. -/
def Auth.API_BASE_URL : String := "http://localhost:5001"

/-- `Auth.getToken` (auth.js 19-21). -/
def Auth.getToken : Js (Option String) := getItem "think_auth_token"

/-- `Auth.clearToken` (auth.js 40-44). -/
def Auth.clearToken : Js Unit := do
  removeItem "think_auth_token"
  removeItem "think_refresh_token"
  removeItem "think_user_data"

/-- `Auth.logout` (auth.js 158-178). -/
def Auth.logout (net : Backend) : Js Unit :=
  jsFinally
    (jsTry
      (do
        let token ← Auth.getToken
        if itemTruthy token then
          let _ ← fetch net (Auth.API_BASE_URL ++ "/auth/logout")
            { method := some "POST"
              headers := [("Authorization", "Bearer " ++ templateText token)]
              body := none }
          pure ()
        else
          pure ())
      (fun _ => pure ()))
    (do
      Auth.clearToken
      setHref "login.html")

/-- `Auth.setToken` (auth.js 12-14). -/
def Auth.setToken (token : JVal) : Js Unit := setItem "think_auth_token" (toStr token)

/-- `Auth.setRefreshToken` (auth.js 26-28). -/
def Auth.setRefreshToken (token : JVal) : Js Unit :=
  setItem "think_refresh_token" (toStr token)

/-- `Auth.getRefreshToken` (auth.js 33-35). -/
def Auth.getRefreshToken : Js (Option String) := getItem "think_refresh_token"

/-- `Auth.setUserData` (auth.js 49-51). -/
def Auth.setUserData (userData : JVal) : Js Unit :=
  setItem "think_user_data" ((jsonStringify userData).getD "undefined")

/-- `Auth.refreshSession` (auth.js 184-216). -/
def Auth.refreshSession (net : Backend) : Js JVal :=
  jsTry
    (do
      let refreshToken ← Auth.getRefreshToken
      if !itemTruthy refreshToken then
        pure failure
      else
        let response ← fetch net (Auth.API_BASE_URL ++ "/auth/refresh")
          (refreshConfig (templateText refreshToken))
        if response.ok then
          let data ← response.json
          let success ← liftExcept (getProp data "success")
          if truthy success then
            let user ← liftExcept (getProp data "user")
            if truthy user then
              let session ← liftExcept (getProp user "session")
              if truthy session then
                let accessToken ← liftExcept (getProp session "access_token")
                Auth.setToken accessToken
                let newRefreshToken ← liftExcept (getProp session "refresh_token")
                Auth.setRefreshToken newRefreshToken
                Auth.setUserData user
                pure (successWith user)
              else
                pure failure
            else
              pure failure
          else
            pure failure
        else
          pure failure)
    (fun _ => pure failure)

/-- The `headers` object built at auth.js 278-282. -/
def Auth.buildHeaders (options : Options) (token : Option String) : Headers :=
  spreadHeaders
    [("Authorization", "Bearer " ++ templateText token), ("Content-Type", "application/json")]
    (options.headers.getD [])

/-- `Auth.authenticatedFetch` (auth.js 271-319); it returns the response itself. -/
def Auth.authenticatedFetch (net : Backend) (endpoint : String) (options : Options) :
    Js Response := do
  let token ← Auth.getToken
  if !itemTruthy token then
    jsThrow (.error "Not authenticated")
  else
    let headers := Auth.buildHeaders options token
    let response ← fetch net (Auth.API_BASE_URL ++ endpoint)
      { method := options.method, headers := headers, body := options.body }
    if response.status = 401 then
      let refreshResult ← Auth.refreshSession net
      let success ← liftExcept (getProp refreshResult "success")
      if truthy success then
        let token ← Auth.getToken
        let headers := setHeader "Authorization" ("Bearer " ++ templateText token) headers
        let response ← fetch net (Auth.API_BASE_URL ++ endpoint)
          { method := options.method, headers := headers, body := options.body }
        if response.status = 401 then
          Auth.clearToken
          setHref "login.html"
          jsThrow (.error "Session expired")
        else
          pure response
      else
        Auth.clearToken
        setHref "login.html"
        jsThrow (.error "Session expired")
    else
      pure response

/-! ## `frontend-html-deprecated/scripts/signup.js`: the step machine

The wizard keeps `currentStep`; the results of `validateStep1`, `createAccount`,
`uploadResume` and `validateStep3` are inputs of the click handlers. -/

/-- The click handler of `nextBtn` (signup.js 239-261), as the new `currentStep`. -/
def nextClick (validateStep1 createAccount uploadResume : Bool) (currentStep : Nat) : Nat :=
  if currentStep = 1 then
    if validateStep1 then
      if createAccount then currentStep + 1 else currentStep
    else currentStep
  else if currentStep = 2 then
    if uploadResume then currentStep + 1 else currentStep
  else currentStep

/-- The click handler of `backBtn` (signup.js 263-269), as the new `currentStep`. -/
def backClick (currentStep : Nat) : Nat :=
  if currentStep > 1 ∧ currentStep < 3 then currentStep - 1 else currentStep

/-- The value `updateStepUI` gives `backBtn.disabled` (signup.js 53-65); at a step other
than 1, 2, 3 the button is left as it was, here `previous`. -/
def backDisabled (previous : Bool) (currentStep : Nat) : Bool :=
  if currentStep = 1 then true
  else if currentStep = 2 then false
  else if currentStep = 3 then true
  else previous

/-! ## `frontend/src/context/AuthContext.jsx` -/

/-- The page as `AuthProvider` sees it: the world of the gateway and the two pieces of
component state, `user` and `loading`. -/
structure Page where
  world : World
  user : JVal
  loading : Bool

/-- An `async` function of the component: it runs on a page and returns or throws. -/
abbrev Ui (α : Type) := Page → Except Thrown α × Page

/-- Sequencing of two steps of the component; a throw skips the rest. -/
def Ui.bind {α β : Type} (m : Ui α) (f : α → Ui β) : Ui β := fun p =>
  match m p with
  | (.ok a, p') => f a p'
  | (.error e, p') => (.error e, p')

/-- A step of the component that returns `a` and changes nothing. -/
def Ui.pure {α : Type} (a : α) : Ui α := fun p => (.ok a, p)

instance : Monad Ui where
  pure := Ui.pure
  bind := Ui.bind

/-- A call into the gateway from the component. -/
def liftJs {α : Type} (m : Js α) : Ui α := fun p =>
  match m p.world with
  | (res, w') => (res, { p with world := w' })

/-- The statement `try body catch (error) handler` in the component. -/
def uiTry {α : Type} (body : Ui α) (handler : Thrown → Ui α) : Ui α := fun p =>
  match body p with
  | (.ok a, p') => (.ok a, p')
  | (.error e, p') => handler e p'

/-- The state setter `setUser`. -/
def setUser (user : JVal) : Ui Unit := fun p => (.ok (), { p with user := user })

/-- The state setter `setLoading`. -/
def setLoading (loading : Bool) : Ui Unit := fun p => (.ok (), { p with loading := loading })

/-- `validateSession` (AuthContext.jsx 20-49), with the platform's `JSON.parse` as the
parameter `parse`. -/
def validateSession (net : Backend) (parse : String → Except Thrown JVal) : Ui Unit := do
  let authenticated ← liftJs isAuthenticated
  if !authenticated then
    setLoading false
  else
    let userData ← liftJs (getUserData parse)
    if truthy userData then
      setUser userData
    else
      pure ()
    uiTry
      (do
        let response ← liftJs (apiRequest net "/auth/session" {})
        let success ← liftJs (liftExcept (getProp response "success"))
        if truthy success then
          let user ← liftJs (liftExcept (getProp response "user"))
          if truthy user then
            setUser user
            liftJs (setUserData user)
          else
            pure ()
        else
          pure ())
      (fun _ => do
        liftJs removeToken
        liftJs removeRefreshToken
        liftJs removeUserData
        setUser .null)
    setLoading false

/-! ## The alumni directory: `HomePage.jsx` and `alumni.js`

An alumni record is a JSON object.  `String.prototype.toLowerCase` and `parseInt` belong
to the platform and are the parameters `lower` and `parseInt` (`none` is `NaN`).
`Array.prototype.sort` with a consistent comparator is the stable sort, here the
insertion sort on "the comparator is not positive". -/

/-- An alumni record: the own properties of a JSON object. -/
abbrev Alumni := List (String × JVal)

/-- The UTF-16 code units of a character. -/
def utf16Units (c : Char) : List Nat :=
  if c.toNat < 65536 then [c.toNat]
  else [55296 + (c.toNat - 65536) / 1024, 56320 + (c.toNat - 65536) % 1024]

/-- The UTF-16 code units of a string; the operators `<` and `>` on strings compare
these sequences. -/
def utf16 (s : String) : List Nat := s.data.flatMap utf16Units

/-- Does the character list start with `needle`? -/
def startsWith : List Char → List Char → Bool
  | _, [] => true
  | [], _ :: _ => false
  | c :: cs, n :: ns => c == n && startsWith cs ns

/-- `String.prototype.includes` on character lists. -/
def includesChars : List Char → List Char → Bool
  | [], needle => needle.isEmpty
  | c :: cs, needle => startsWith (c :: cs) needle || includesChars cs needle

/-- `hay.includes(needle)` on strings. -/
def includes (hay needle : String) : Bool := includesChars hay.data needle.data

/-- The comparison `SameValueZero` between a JSON value of a record and a selected value;
two arrays or objects are never the same reference. -/
def sameValueZero : JVal → JVal → Bool
  | .undefined, .undefined => true
  | .null, .null => true
  | .bool a, .bool b => a == b
  | .num a, .num b => a == b
  | .str a, .str b => a == b
  | _, _ => false

/-- `selected.includes(v)` on an array of selected values. -/
def arrayIncludes (selected : List JVal) (v : JVal) : Bool :=
  selected.any (fun x => sameValueZero x v)

/-- The call `v.toLowerCase()`: a `TypeError` unless `v` is a string. -/
def toLowerCase (lower : String → String) : JVal → Except Thrown String
  | .str s => .ok (lower s)
  | _ => .error .typeError

/-- The chain `v?.toLowerCase().includes(q)`: `undefined` when `v` is `null` or
`undefined`. -/
def optLowerIncludes (lower : String → String) (v : JVal) (q : String) : Except Thrown JVal :=
  match v with
  | .undefined => .ok .undefined
  | .null => .ok .undefined
  | v => do
    let text ← toLowerCase lower v
    pure (.bool (includes text q))

/-- The chain `v?.some(c => selected.includes(c))`: `undefined` when `v` is `null` or
`undefined`, a `TypeError` when it is not an array. -/
def optSomeIncluded (selected : List JVal) : JVal → Except Thrown JVal
  | .undefined => .ok .undefined
  | .null => .ok .undefined
  | .arr items => .ok (.bool (items.any (fun c => arrayIncludes selected c)))
  | _ => .error .typeError

/-- `Array.prototype.filter` with a callback that may throw. -/
def filterExcept {α : Type} (keep : α → Except Thrown Bool) : List α → Except Thrown (List α)
  | [] => .ok []
  | a :: rest =>
    match keep a with
    | .error e => .error e
    | .ok b =>
      match filterExcept keep rest with
      | .error e => .error e
      | .ok kept => .ok (if b then a :: kept else kept)

/-- The comparator of the sort (HomePage.jsx 148-161, alumni.js 250-266). -/
def compareAlumni (lower : String → String) (parseInt : String → Option Int)
    (sortBy : String) (ascending : Bool) (a b : Alumni) : Int :=
  let aValue := jsOr (lookupField sortBy a) (.str "")
  let bValue := jsOr (lookupField sortBy b) (.str "")
  if sortBy = "grad_year" then
    let aNumber := (parseInt (toStr aValue)).getD 0
    let bNumber := (parseInt (toStr bValue)).getD 0
    if aNumber < bNumber then (if ascending then -1 else 1)
    else if aNumber > bNumber then (if ascending then 1 else -1)
    else 0
  else
    let aText := lower (toStr aValue)
    let bText := lower (toStr bValue)
    if utf16 aText < utf16 bText then (if ascending then -1 else 1)
    else if utf16 aText > utf16 bText then (if ascending then 1 else -1)
    else 0

/-- `Array.prototype.sort(compare)` for a consistent comparator: the stable sort. -/
def arraySort {α : Type} (compare : α → α → Int) (l : List α) : List α :=
  l.insertionSort (fun a b => compare a b ≤ 0)

/-- The `filters` state of `HomePage`. -/
structure Filters where
  searchName : String
  searchTitle : String
  selectedMajors : List JVal
  selectedYears : List JVal
  selectedCompanies : List JVal
  selectedIndustries : List JVal
  sortBy : String
  sortAscending : Bool

/-- The callback of the filter in `HomePage.applyFilters` (HomePage.jsx 123-146). -/
def HomePage.keeps (lower : String → String) (filters : Filters) (alumni : Alumni) :
    Except Thrown Bool := do
  let nameMiss ←
    if filters.searchName ≠ "" then do
      let name ← toLowerCase lower (lookupField "name" alumni)
      pure (!includes name (lower filters.searchName))
    else pure false
  if nameMiss then pure false else
  let titleMiss ←
    if filters.searchTitle ≠ "" then do
      let byRole ← optLowerIncludes lower (lookupField "role_title" alumni)
        (lower filters.searchTitle)
      let titleMatch ←
        if truthy byRole then pure byRole
        else optLowerIncludes lower (lookupField "headline" alumni) (lower filters.searchTitle)
      pure (!truthy titleMatch)
    else pure false
  if titleMiss then pure false else
  if filters.selectedMajors.length > 0 &&
      !arrayIncludes filters.selectedMajors (lookupField "major" alumni) then pure false else
  if filters.selectedYears.length > 0 &&
      !arrayIncludes filters.selectedYears (lookupField "grad_year" alumni) then pure false else
  let companyMiss ←
    if filters.selectedCompanies.length > 0 then do
      let hasCompany ← optSomeIncluded filters.selectedCompanies
        (lookupField "companies_list" alumni)
      pure (!truthy hasCompany)
    else pure false
  if companyMiss then pure false else
  if filters.selectedIndustries.length > 0 &&
      !arrayIncludes filters.selectedIndustries (lookupField "company_industry" alumni) then
    pure false
  else pure true

/-- `HomePage.applyFilters` (HomePage.jsx 122-164), as the list handed to
`setFilteredAlumni`. -/
def HomePage.applyFilters (lower : String → String) (parseInt : String → Option Int)
    (filters : Filters) (allAlumni : List Alumni) : Except Thrown (List Alumni) := do
  let filtered ← filterExcept (HomePage.keeps lower filters) allAlumni
  pure (arraySort (compareAlumni lower parseInt filters.sortBy filters.sortAscending) filtered)

/-- The inputs of the deprecated page as `alumni.js` reads them; `none` is an element
that is not in the document. -/
structure Inputs where
  searchNameInput : Option String
  searchTitleInput : Option String
  filterMajorSelect : Option (List String)
  filterYearSelect : Option (List String)
  filterCompanySelect : Option (List String)
  filterIndustrySelect : Option (List String)
  sortBySelect : Option String
  sortAscendingCheckbox : Option Bool

/-- `getSelectedOptions` (alumni.js 416-419). -/
def getSelectedOptions (selectElement : Option (List String)) : List JVal :=
  match selectElement with
  | none => []
  | some values => values.map JVal.str

/-- The query `input?.value.toLowerCase() || ''` (alumni.js 194-195). -/
def queryOf (lower : String → String) (input : Option String) : String :=
  match input with
  | none => ""
  | some value => if lower value ≠ "" then lower value else ""

/-- The callback of the filter in the deprecated `applyFilters` (alumni.js 201-238). -/
def Legacy.keeps (lower : String → String) (inputs : Inputs) (alumni : Alumni) :
    Except Thrown Bool := do
  let nameQuery := queryOf lower inputs.searchNameInput
  let titleQuery := queryOf lower inputs.searchTitleInput
  let selectedMajors := getSelectedOptions inputs.filterMajorSelect
  let selectedYears := getSelectedOptions inputs.filterYearSelect
  let selectedCompanies := getSelectedOptions inputs.filterCompanySelect
  let selectedIndustries := getSelectedOptions inputs.filterIndustrySelect
  let nameMiss ←
    if nameQuery ≠ "" then do
      let name ← toLowerCase lower (lookupField "name" alumni)
      pure (!includes name nameQuery)
    else pure false
  if nameMiss then pure false else
  let titleMiss ←
    if titleQuery ≠ "" then do
      let role ← toLowerCase lower (lookupField "role_title" alumni)
      let titleMatch ←
        if includes role titleQuery then pure (JVal.bool true)
        else optLowerIncludes lower (lookupField "headline" alumni) titleQuery
      pure (!truthy titleMatch)
    else pure false
  if titleMiss then pure false else
  if selectedMajors.length > 0 &&
      !arrayIncludes selectedMajors (lookupField "major" alumni) then pure false else
  if selectedYears.length > 0 &&
      !arrayIncludes selectedYears (lookupField "grad_year" alumni) then pure false else
  let companyMiss ←
    if selectedCompanies.length > 0 then do
      let hasCompany ← optSomeIncluded selectedCompanies (lookupField "companies_list" alumni)
      pure (!truthy hasCompany)
    else pure false
  if companyMiss then pure false else
  if selectedIndustries.length > 0 &&
      !arrayIncludes selectedIndustries (lookupField "company_industry" alumni) then
    pure false
  else pure true

/-- `sortAlumni` (alumni.js 246-267) on the list `filteredAlumni`. -/
def sortAlumni (lower : String → String) (parseInt : String → Option Int) (inputs : Inputs)
    (filteredAlumni : List Alumni) : List Alumni :=
  let sortBy :=
    match inputs.sortBySelect with
    | none => "name"
    | some value => if value ≠ "" then value else "name"
  let ascending := inputs.sortAscendingCheckbox.getD true
  arraySort (compareAlumni lower parseInt sortBy ascending) filteredAlumni

/-- The deprecated `applyFilters` (alumni.js 193-243), as the new `filteredAlumni`. -/
def Legacy.applyFilters (lower : String → String) (parseInt : String → Option Int)
    (inputs : Inputs) (allAlumni : List Alumni) : Except Thrown (List Alumni) := do
  let filtered ← filterExcept (Legacy.keeps lower inputs) allAlumni
  pure (sortAlumni lower parseInt inputs filtered)

/-! ## Parts of `apiRequest` named for the statements -/

/-- The last step of `apiRequest` (api.js 111-117), on the response it ends with. -/
def settle (response : Response) : Js JVal := do
  let data ← response.json
  if !response.ok then
    let error ← liftExcept (getProp data "error")
    jsThrow (.error (toStr (jsOr error (.str "Request failed"))))
  else
    pure data

/-! ## Vocabulary of the statements -/

/-- The request `apiRequest` sends first: the endpoint under the base URL with the
`config` built from the options and the stored access token. -/
def firstRequest (endpoint : String) (options : Options) (w : World) : Request :=
  { url := API_BASE_URL ++ endpoint
    config := buildConfig options (w.localStorage "auth_token") }

/-- The request `refreshSession` sends for the refresh token `t`. -/
def refreshRequest (t : String) : Request :=
  { url := API_BASE_URL ++ "/auth/refresh", config := refreshConfig t }

/-- The re-issue of the first request with the `Authorization` header overwritten by the
bearer of `token`. -/
def retryRequest (endpoint : String) (options : Options) (w : World) (token : String) :
    Request :=
  { url := API_BASE_URL ++ endpoint
    config :=
      { method := options.method
        headers := setHeader "Authorization" ("Bearer " ++ token)
          (buildConfig options (w.localStorage "auth_token")).headers
        body := options.body } }

/-- The storage after the three setters of a successful refresh or login. -/
def stored (w : World) (a b user : JVal) : Storage :=
  ((w.localStorage.setItem "auth_token" (toStr a)).setItem "refresh_token" (toStr b)).setItem
    "user_data" ((jsonStringify user).getD "undefined")

/-- The world once the first request of `apiRequest` is out. -/
def afterFirst (endpoint : String) (options : Options) (w : World) : World :=
  { w with sent := w.sent ++ [firstRequest endpoint options w] }

/-- The storage after `removeToken`, `removeRefreshToken` and `removeUserData`. -/
def wiped (s : Storage) : Storage :=
  ((s.removeItem "auth_token").removeItem "refresh_token").removeItem "user_data"

/-- The three keys of the Credential and the Session User Snapshot are absent. -/
def cleared (s : Storage) : Prop :=
  s "auth_token" = none ∧ s "refresh_token" = none ∧ s "user_data" = none

instance (s : Storage) : Decidable (cleared s) := by
  unfold cleared
  infer_instance

/-- The Credential is fully present (both tokens stored and non-empty) or fully absent. -/
def credentialOk (s : Storage) : Bool :=
  match s "auth_token", s "refresh_token" with
  | some a, some r => a != "" && r != ""
  | none, none => true
  | _, _ => false

/-- The three keys of the legacy script (auth.js) are absent. -/
def Auth.cleared (s : Storage) : Prop :=
  s "think_auth_token" = none ∧ s "think_refresh_token" = none ∧ s "think_user_data" = none

instance (s : Storage) : Decidable (Auth.cleared s) := by
  unfold Auth.cleared
  infer_instance

/-- The request `authAPI.login` sends. -/
def loginRequest (email password : JVal) : Request :=
  { url := API_BASE_URL ++ "/auth/login", config := loginConfig email password }

/-- The request `profileAPI.uploadResume` sends for `file` from the world `w`. -/
def uploadRequest (file : String) (w : World) : Request :=
  { url := API_BASE_URL ++ "/api/resume/upload"
    config :=
      { method := some "POST"
        headers := [("Authorization", "Bearer " ++ templateText (w.localStorage "auth_token"))]
        body := some (.formData [("resume", file)]) } }

/-- The response `r` is the one an `apiRequest` call ends with: the first response when
its status is not 401, or the response to the re-issued request after a successful
refresh. -/
def FinalResponse (net : Backend) (endpoint : String) (options : Options) (w : World)
    (r : Response) : Prop :=
  (net (w.sent ++ [firstRequest endpoint options w]) = some r ∧ r.status ≠ 401) ∨
  ∃ r1 user w2,
    net (w.sent ++ [firstRequest endpoint options w]) = some r1 ∧ r1.status = 401 ∧
    refreshSession net (afterFirst endpoint options w) = (.ok (successWith user), w2) ∧
    net (w2.sent ++
      [retryRequest endpoint options w (templateText (w2.localStorage "auth_token"))]) = some r

/-- The world after `setToken(a)` and then `setRefreshToken(r)`. -/
def afterStoring (a r : String) (w : World) : World :=
  (setRefreshToken (.str r) (setToken (.str a) w).2).2

/-- A freshly loaded page over the storage `s`: nothing but `localStorage` survives. -/
def reloaded (s : Storage) : World := { localStorage := s, href := "/", sent := [] }

/-- The property `v.k` as `authAPI.signup` reads it once `v` is known to be readable. -/
def propOf (v : JVal) (k : String) : JVal :=
  match getProp v k with
  | .ok x => x
  | .error _ => .undefined

/-- The request `authAPI.signup` sends for `signupData`. -/
def signupRequest (signupData : JVal) : Request :=
  { url := API_BASE_URL ++ "/auth/signup"
    config :=
      { method := some "POST"
        headers := [("Content-Type", "application/json")]
        body := (jsonStringify (.obj [("email", propOf signupData "email"),
          ("password", propOf signupData "password"),
          ("referral_code", propOf signupData "referralCode"),
          ("full_name", propOf signupData "fullName")])).map Body.text } }

/-- The request `Auth.authenticatedFetch` sends first. -/
def Auth.firstRequest (endpoint : String) (options : Options) (w : World) : Request :=
  { url := Auth.API_BASE_URL ++ endpoint
    config :=
      { method := options.method
        headers := Auth.buildHeaders options (w.localStorage "think_auth_token")
        body := options.body } }

/-- The request `Auth.refreshSession` sends for the refresh token `t`. -/
def Auth.refreshRequest (t : String) : Request :=
  { url := Auth.API_BASE_URL ++ "/auth/refresh", config := refreshConfig t }

/-- The re-issue of the first request of `Auth.authenticatedFetch` with the bearer of
`token`. -/
def Auth.retryRequest (endpoint : String) (options : Options) (w : World) (token : String) :
    Request :=
  { url := Auth.API_BASE_URL ++ endpoint
    config :=
      { method := options.method
        headers := setHeader "Authorization" ("Bearer " ++ token)
          (Auth.buildHeaders options (w.localStorage "think_auth_token"))
        body := options.body } }

/-- The page `validateSession` leaves when the session check failed: the three keys
removed, no user, `loading` cleared. -/
def signedOutPage (w : World) : Page :=
  { world := { w with localStorage := wiped w.localStorage }, user := .null, loading := false }

/-- The page `validateSession` leaves when the session check returned the user `user`:
the snapshot replaced by the text of `user`, `user` in the component state. -/
def validatedPage (w : World) (user : JVal) : Page :=
  { world := { w with
      localStorage := w.localStorage.setItem "user_data" ((jsonStringify user).getD "undefined") }
    user := user
    loading := false }

/-- The page `validateSession` leaves when the session check returned no user: the world
as `apiRequest` left it and the component's `user` as it stood before the check. -/
def unchangedPage (w : World) (user : JVal) : Page :=
  { world := w, user := user, loading := false }

/-- The sort key `sortAlumni` chooses: the value of the select, `name` when the select
is missing or its value is empty. -/
def chosenSortBy (inputs : Inputs) : String :=
  match inputs.sortBySelect with
  | none => "name"
  | some value => if value ≠ "" then value else "name"

/-- The integer parsed from `grad_year`, 0 when it is missing or does not parse. -/
def gradYearKey (parseInt : String → Option Int) (a : Alumni) : Int :=
  (parseInt (toStr (jsOr (lookupField "grad_year" a) (.str "")))).getD 0

/-- The lower-cased string value of the key `sortBy`, the empty string when it is
missing, as its UTF-16 code units. -/
def textKey (lower : String → String) (sortBy : String) (a : Alumni) : List Nat :=
  utf16 (lower (toStr (jsOr (lookupField sortBy a) (.str ""))))

/-- The record `a` may stand before `b`: their keys are non-decreasing when ascending and
non-increasing when descending. -/
def inOrder (lower : String → String) (parseInt : String → Option Int) (sortBy : String)
    (ascending : Bool) (a b : Alumni) : Prop :=
  if sortBy = "grad_year" then
    if ascending then gradYearKey parseInt a ≤ gradYearKey parseInt b
    else gradYearKey parseInt b ≤ gradYearKey parseInt a
  else
    if ascending then textKey lower sortBy a ≤ textKey lower sortBy b
    else textKey lower sortBy b ≤ textKey lower sortBy a

/-- The outcome of the refresh call, given as the answer `out` of the transport, is a
failing one: the fetch rejects, the response is not ok, the body is not valid JSON,
`data.success` is falsy (or cannot be read), or `data.user?.session` is falsy. -/
def RefreshFails (out : Option Response) : Prop :=
  out = none ∨
  ∃ r, out = some r ∧
    (r.ok = false ∨ r.body = none ∨
      ∃ data, r.body = some data ∧
        ((∀ s, getProp data "success" = .ok s → truthy s = false) ∨
         (∀ u, getProp data "user" = .ok u → truthy (getPropOpt u "session") = false)))

/-- Every session object the backend ever returns carries an access token and a
refresh token that are non-empty strings. -/
def TokensNonEmpty (net : Backend) : Prop :=
  ∀ sent r data user a, net sent = some r → r.body = some data →
    getProp data "user" = .ok user →
    (getProp (getPropOpt user "session") "access_token" = .ok a ∨
     getProp (getPropOpt user "session") "refresh_token" = .ok a) →
    ∃ s, a = .str s ∧ s ≠ ""

/-! ## Concrete runs -/

/-- A storage holding the access token `A1` and the refresh token `R1`. -/
def signedIn : Storage := fun k =>
  if k = "auth_token" then some "A1" else if k = "refresh_token" then some "R1" else none

/-- A page with the Credential `A1`/`R1` stored and nothing sent yet. -/
def signedInWorld : World := { localStorage := signedIn, href := "/", sent := [] }

/-- A page with an empty `localStorage`. -/
def signedOutWorld : World := { localStorage := fun _ => none, href := "/", sent := [] }

/-- The body `\x7b success: true, user: \x7b session: \x7b access_token, refresh_token \x7d \x7d \x7d`. -/
def sessionBody (accessToken refreshToken : String) : JVal :=
  .obj [("success", .bool true),
    ("user", .obj [("session",
      .obj [("access_token", .str accessToken), ("refresh_token", .str refreshToken)])])]

/-- A backend that answers the first call 401, the second (the refresh) with the session
`A2`/`R2`, and every later call 200 with the body `\x7b ok: true \x7d`. -/
def expiredOnce : Backend := fun sent =>
  match sent.length with
  | 1 => some { status := 401, body := some (.obj [("error", .str "Token expired")]) }
  | 2 => some { status := 200, body := some (sessionBody "A2" "R2") }
  | _ => some { status := 200, body := some (.obj [("ok", .bool true)]) }

/-- A backend that answers the refresh call with the session `A2`/`R2` and every other
call 401. -/
def alwaysUnauthorized : Backend := fun sent =>
  match sent.length with
  | 2 => some { status := 200, body := some (sessionBody "A2" "R2") }
  | _ => some { status := 401, body := some (.obj [("error", .str "Unauthorized")]) }

/-- A backend that answers every call ok with the session `A2`/`R2`. -/
def renewing : Backend := fun _ =>
  some { status := 200, body := some (sessionBody "A2" "R2") }

/-- A backend that answers every call ok with a session whose access token is the empty
string and whose refresh token is `R2`. -/
def emptyAccessToken : Backend := fun _ =>
  some { status := 200, body := some (sessionBody "" "R2") }

/-- A backend that answers every call ok with `success: true` and a session object that
carries no tokens. -/
def tokenlessSession : Backend := fun _ =>
  some { status := 200,
         body := some (.obj [("success", .bool true), ("user", .obj [("session", .obj [])])]) }

/-- The body of the login example: a session `A`/`B` and the email of the user. -/
def exampleLoginBody : JVal :=
  .obj [("success", .bool true),
    ("user", .obj [("session", .obj [("access_token", .str "A"), ("refresh_token", .str "B")]),
      ("email", .str "user@example.com")])]

/-- A backend that answers every call ok with `exampleLoginBody`. -/
def loginStub : Backend := fun _ => some { status := 200, body := some exampleLoginBody }

/-- A backend that answers every call 401 with the JSON body `null`. -/
def nullBody : Backend := fun _ => some { status := 401, body := some .null }

/-- A backend that answers every call 401 with the body
`\x7b success: false, error: "Invalid credentials" \x7d`. -/
def wrongPassword : Backend := fun _ =>
  some { status := 401,
         body := some (.obj [("success", .bool false), ("error", .str "Invalid credentials")]) }

/-- A backend that answers every call 500 with a body that is not valid JSON. -/
def malformed : Backend := fun _ => some { status := 500, body := none }

/-- A backend that answers every call 500 with the JSON body `null`. -/
def nullBody500 : Backend := fun _ => some { status := 500, body := some .null }

/-- A backend that answers every call 500 with the body `\x7b error: "Boom" \x7d`. -/
def failing : Backend := fun _ =>
  some { status := 500, body := some (.obj [("error", .str "Boom")]) }

/-- A transport that rejects every call. -/
def offline : Backend := fun _ => none

/-- A backend that answers every call 401. -/
def rejecting : Backend := fun _ =>
  some { status := 401, body := some (.obj [("error", .str "Unauthorized")]) }

/-- A storage holding the legacy access token `A1` and refresh token `R1`. -/
def legacySignedIn : Storage := fun k =>
  if k = "think_auth_token" then some "A1"
  else if k = "think_refresh_token" then some "R1" else none

/-- A page of the legacy frontend with `A1`/`R1` stored and nothing sent yet. -/
def legacyWorld : World := { localStorage := legacySignedIn, href := "home.html", sent := [] }

/-- A backend that answers every call 200 with the JSON body `null`. -/
def nullBody200 : Backend := fun _ => some { status := 200, body := some .null }

/-- A backend that answers every call 200 with the body
`\x7b success: false, message: "Referral code rejected" \x7d`. -/
def okButUnsuccessful : Backend := fun _ =>
  some { status := 200,
         body := some (.obj [("success", .bool false), ("message", .str "Referral code rejected")]) }

/-- The signup input of the concrete runs. -/
def exampleSignup : JVal :=
  .obj [("email", .str "user@example.com"), ("password", .str "correct-password"),
    ("referralCode", .str "THINK"), ("fullName", .str "Ada Lovelace")]

/-- A backend for the legacy page: the refresh call (the second call) is answered with
the session `A2`/`R2`, every other call 401. -/
def legacyUnauthorized : Backend := fun sent =>
  match sent.length with
  | 2 => some { status := 200, body := some (sessionBody "A2" "R2") }
  | _ => some { status := 401, body := some (.obj [("error", .str "Unauthorized")]) }

/-- The page on mount over the world `w`: no user yet, `loading` set. -/
def mounted (w : World) : Page := { world := w, user := .null, loading := true }

/-- A backend that answers every call 200 with
`\x7b success: true, user: \x7b email: "user@example.com" \x7d \x7d`. -/
def sessionValid : Backend := fun _ =>
  some { status := 200,
         body := some (.obj [("success", .bool true),
           ("user", .obj [("email", .str "user@example.com")])]) }

/-- Lower-casing of the ASCII letters, the instance of `toLowerCase` in the concrete
runs. -/
def asciiLower (s : String) : String := String.mk (s.data.map Char.toLower)

/-- The digits at the front of a character list, as a number. -/
def readDigits : Nat → List Char → Option Nat
  | acc, c :: rest =>
    if 48 ≤ c.toNat ∧ c.toNat ≤ 57 then
      match readDigits (acc * 10 + (c.toNat - 48)) rest with
      | some n => some n
      | none => some (acc * 10 + (c.toNat - 48))
    else none
  | _, [] => none

/-- A decimal `parseInt`, the instance in the concrete runs: optional sign, then
digits; `none` when there is no digit. -/
def parseIntDecimal (s : String) : Option Int :=
  match skipWs s.data with
  | [] => none
  | c :: rest =>
    if c = Char.ofNat 45 then (readDigits 0 rest).map (fun n => - (n : Int))
    else if c = Char.ofNat 43 then (readDigits 0 rest).map (fun n => (n : Int))
    else (readDigits 0 (c :: rest)).map (fun n => (n : Int))

/-- A record without `role_title` (the backend sent `null`) but with a headline. -/
def ann : Alumni :=
  [("name", .str "Ann Lee"), ("role_title", .null), ("headline", .str "Software Engineer"),
    ("grad_year", .num "2021")]

/-- A record with every field. -/
def bob : Alumni :=
  [("name", .str "bob Ross"), ("role_title", .str "Engineering Manager"),
    ("headline", .str "Manager"), ("grad_year", .num "2019")]

/-- The React settings: the title query `eng`, sorted by name, ascending. -/
def titleQueryFilters : Filters :=
  { searchName := "", searchTitle := "eng", selectedMajors := [], selectedYears := [],
    selectedCompanies := [], selectedIndustries := [], sortBy := "name", sortAscending := true }

/-- The same settings as the inputs of the deprecated page. -/
def titleQueryInputs : Inputs :=
  { searchNameInput := some "", searchTitleInput := some "eng", filterMajorSelect := some [],
    filterYearSelect := some [], filterCompanySelect := some [], filterIndustrySelect := some [],
    sortBySelect := some "name", sortAscendingCheckbox := some true }

/-- A page that holds the access token `A1` with the refresh token `R9` and the user
snapshot `null`. -/
def otherSession : World :=
  reloaded ((signedIn.setItem "refresh_token" "R9").setItem "user_data" "null")

/-! ## Running the steps -/

@[simp] theorem bind_run {α β : Type} (m : Js α) (f : α → Js β) (w : World) :
    (m >>= f) w = Js.bind m f w := rfl

@[simp] theorem pure_run {α : Type} (a : α) (w : World) :
    (pure a : Js α) w = (.ok a, w) := rfl

theorem bind_ok {α β : Type} (m : Js α) (f : α → Js β) (w w' : World) (a : α)
    (h : m w = (.ok a, w')) : Js.bind m f w = f a w' := by
  simp [Js.bind, h]

theorem bind_error {α β : Type} (m : Js α) (f : α → Js β) (w w' : World) (e : Thrown)
    (h : m w = (.error e, w')) : Js.bind m f w = (.error e, w') := by
  simp [Js.bind, h]

theorem jsTry_run {α : Type} (body : Js α) (handler : Thrown → Js α) (w : World) :
    jsTry body handler w =
      match body w with
      | (.ok a, w') => (.ok a, w')
      | (.error e, w') => handler e w' := rfl

theorem fetch_some (net : Backend) (url : String) (config : Config) (w : World) (r : Response)
    (h : net (w.sent ++ [{ url := url, config := config }]) = some r) :
    fetch net url config w =
      (.ok r, { w with sent := w.sent ++ [{ url := url, config := config }] }) := by
  simp [fetch, h]

theorem fetch_none (net : Backend) (url : String) (config : Config) (w : World)
    (h : net (w.sent ++ [{ url := url, config := config }]) = none) :
    fetch net url config w =
      (.error .networkError, { w with sent := w.sent ++ [{ url := url, config := config }] }) := by
  simp [fetch, h]

theorem apiRequest_eq (net : Backend) (endpoint : String) (options : Options) :
    apiRequest net endpoint options = (do
      let token ← getToken
      let config := buildConfig options token
      let response ← fetch net (API_BASE_URL ++ endpoint) config
      let response ←
        if response.status = 401 then do
          let refreshResult ← refreshSession net
          let success ← liftExcept (getProp refreshResult "success")
          if truthy success then
            let token ← getToken
            let config := { config with
              headers := setHeader "Authorization" ("Bearer " ++ templateText token) config.headers }
            fetch net (API_BASE_URL ++ endpoint) config
          else
            removeToken
            removeRefreshToken
            removeUserData
            setHref "/auth"
            jsThrow (.error "Session expired")
        else
          pure response
      settle response) := rfl

/-- The last step leaves the world as it is. -/
theorem settle_world (r : Response) (w : World) : (settle r w).2 = w := by
  unfold settle
  simp only [bind_run, Js.bind, Response.json]
  cases r.body with
  | none => simp [jsThrow]
  | some data =>
    simp only [pure_run]
    cases r.ok with
    | true => simp
    | false =>
      cases hp : getProp data "error" with
      | error e => simp [liftExcept, jsThrow, Js.bind]
      | ok v => simp [liftExcept, jsThrow, Js.bind]

theorem refreshSession_no_token (net : Backend) (w : World)
    (h : itemTruthy (w.localStorage "refresh_token") = false) :
    refreshSession net w = (.ok failure, w) := by
  simp [refreshSession, Js.bind, getRefreshToken, getItem, h]

theorem refreshSession_fails (net : Backend) (w : World) (t : String)
    (ht : w.localStorage "refresh_token" = some t) (hne : t ≠ "")
    (hfail : RefreshFails (net (w.sent ++ [refreshRequest t]))) :
    refreshSession net w = (.ok failure, { w with sent := w.sent ++ [refreshRequest t] }) := by
  have htr : itemTruthy (some t) = true := by simp [itemTruthy, hne]
  simp only [refreshSession, bind_run, Js.bind, getRefreshToken, getItem, ht, htr, templateText]
  simp only [Bool.not_true, Bool.false_eq_true, if_false]
  simp only [jsTry_run]
  simp only [refreshRequest] at hfail ⊢
  rcases hfail with h | ⟨r, h, hr⟩
  · simp [Js.bind, fetch_none _ _ _ _ h]
  · simp only [bind_run, Js.bind, fetch_some _ _ _ _ _ h]
    rcases hr with hok | hbody | ⟨data, hbody, hd⟩
    · simp [hok]
    · cases hrok : r.ok <;> simp [Response.json, hbody, jsThrow, Js.bind]
    · cases hrok : r.ok
      · simp
      · simp only [Response.json, hbody, if_true, bind_run, Js.bind, pure_run]
        cases hs : getProp data "success" with
        | error e => simp [liftExcept, jsThrow]
        | ok s =>
          simp only [liftExcept, pure_run]
          rcases hd with hd | hd
          · simp [hd s hs]
          · cases hts : truthy s
            · simp
            · cases hu : getProp data "user" with
              | error e => simp [liftExcept, jsThrow, Js.bind]
              | ok u => simp [liftExcept, Js.bind, hd u hu]

theorem getProp_of_truthy (v : JVal) (k : String) (h : truthy v = true) :
    ∃ a, getProp v k = .ok a := by
  cases v <;> simp_all [truthy, getProp]

theorem refreshSession_succeeds (net : Backend) (w : World) (t : String) (r : Response)
    (data s user a b : JVal)
    (ht : w.localStorage "refresh_token" = some t) (hne : t ≠ "")
    (hnet : net (w.sent ++ [refreshRequest t]) = some r) (hok : r.ok = true)
    (hbody : r.body = some data)
    (hs : getProp data "success" = .ok s) (hts : truthy s = true)
    (hu : getProp data "user" = .ok user) (hsess : truthy (getPropOpt user "session") = true)
    (ha : getProp (getPropOpt user "session") "access_token" = .ok a)
    (hb : getProp (getPropOpt user "session") "refresh_token" = .ok b) :
    refreshSession net w =
      (.ok (successWith user),
       { localStorage :=
           ((w.localStorage.setItem "auth_token" (toStr a)).setItem "refresh_token" (toStr b)).setItem
             "user_data" ((jsonStringify user).getD "undefined")
         href := w.href
         sent := w.sent ++ [refreshRequest t] }) := by
  have htr : itemTruthy (some t) = true := by simp [itemTruthy, hne]
  simp only [refreshSession, bind_run, Js.bind, getRefreshToken, getItem, ht, htr, templateText]
  simp only [Bool.not_true, Bool.false_eq_true, if_false]
  simp only [jsTry_run]
  simp only [refreshRequest] at hnet ⊢
  simp only [bind_run, Js.bind, fetch_some _ _ _ _ _ hnet, hok, if_true, Response.json, hbody,
    pure_run, hs, liftExcept, hts, hu, hsess, ha, hb, setToken, setRefreshToken, setUserData,
    setItem]

/-- A refresh answer either fails or is an ok response with a truthy `success` and a
truthy `user.session`. -/
theorem refresh_outcome (out : Option Response) :
    RefreshFails out ∨
    ∃ r data s user, out = some r ∧ r.ok = true ∧ r.body = some data ∧
      getProp data "success" = .ok s ∧ truthy s = true ∧
      getProp data "user" = .ok user ∧ truthy (getPropOpt user "session") = true := by
  cases out with
  | none => exact Or.inl (Or.inl rfl)
  | some r =>
    cases hok : r.ok with
    | false => exact Or.inl (Or.inr ⟨r, rfl, Or.inl hok⟩)
    | true =>
      cases hb : r.body with
      | none => exact Or.inl (Or.inr ⟨r, rfl, Or.inr (Or.inl hb)⟩)
      | some data =>
        cases hs : getProp data "success" with
        | error e =>
          exact Or.inl (Or.inr ⟨r, rfl, Or.inr (Or.inr ⟨data, hb, Or.inl (by simp [hs])⟩)⟩)
        | ok s =>
          cases hts : truthy s with
          | false =>
            refine Or.inl (Or.inr ⟨r, rfl, Or.inr (Or.inr ⟨data, hb, Or.inl ?_⟩)⟩)
            intro s' hs'
            rw [hs] at hs'
            cases hs'
            exact hts
          | true =>
            cases hu : getProp data "user" with
            | error e =>
              exact Or.inl (Or.inr ⟨r, rfl, Or.inr (Or.inr ⟨data, hb, Or.inr (by simp [hu])⟩)⟩)
            | ok user =>
              cases hse : truthy (getPropOpt user "session") with
              | false =>
                refine Or.inl (Or.inr ⟨r, rfl, Or.inr (Or.inr ⟨data, hb, Or.inr ?_⟩)⟩)
                intro u hu'
                rw [hu] at hu'
                cases hu'
                exact hse
              | true => exact Or.inr ⟨r, data, s, user, rfl, hok, hb, hs, hts, hu, hse⟩

/-- Every run of `refreshSession` is one of three: no refresh token and nothing done; one
refresh call and a failure with the storage untouched; one refresh call and the three
keys replaced from the answer. -/
theorem refreshSession_cases (net : Backend) (w : World) :
    (itemTruthy (w.localStorage "refresh_token") = false ∧
      refreshSession net w = (.ok failure, w)) ∨
    ∃ t, w.localStorage "refresh_token" = some t ∧ t ≠ "" ∧
      (refreshSession net w = (.ok failure, { w with sent := w.sent ++ [refreshRequest t] }) ∨
       ∃ r data user a b, net (w.sent ++ [refreshRequest t]) = some r ∧ r.body = some data ∧
         getProp data "user" = .ok user ∧
         getProp (getPropOpt user "session") "access_token" = .ok a ∧
         getProp (getPropOpt user "session") "refresh_token" = .ok b ∧
         refreshSession net w =
           (.ok (successWith user),
            { localStorage := stored w a b user, href := w.href,
              sent := w.sent ++ [refreshRequest t] })) := by
  cases hrt : w.localStorage "refresh_token" with
  | none =>
    exact Or.inl ⟨by simp [itemTruthy], refreshSession_no_token net w (by simp [hrt, itemTruthy])⟩
  | some t =>
    by_cases hne : t = ""
    · exact Or.inl ⟨by simp [itemTruthy, hne],
        refreshSession_no_token net w (by simp [hrt, itemTruthy, hne])⟩
    · refine Or.inr ⟨t, rfl, hne, ?_⟩
      rcases refresh_outcome (net (w.sent ++ [refreshRequest t])) with hf | hs
      · exact Or.inl (refreshSession_fails net w t hrt hne hf)
      · obtain ⟨r, data, s, user, hnet, hok, hbody, hs, hts, hu, hse⟩ := hs
        obtain ⟨a, ha⟩ := getProp_of_truthy _ "access_token" hse
        obtain ⟨b, hb⟩ := getProp_of_truthy _ "refresh_token" hse
        exact Or.inr ⟨r, data, user, a, b, hnet, hbody, hu, ha, hb,
          refreshSession_succeeds net w t r data s user a b hrt hne hnet hok hbody hs hts hu hse
            ha hb⟩

theorem apiRequest_rejected (net : Backend) (endpoint : String) (options : Options) (w : World)
    (h : net (w.sent ++ [firstRequest endpoint options w]) = none) :
    apiRequest net endpoint options w = (.error .networkError, afterFirst endpoint options w) := by
  rw [apiRequest_eq]
  simp only [firstRequest] at h
  simp only [bind_run, Js.bind, getToken, getItem, fetch_none _ _ _ _ h]
  rfl

theorem apiRequest_direct (net : Backend) (endpoint : String) (options : Options) (w : World)
    (r : Response) (h : net (w.sent ++ [firstRequest endpoint options w]) = some r)
    (hst : r.status ≠ 401) :
    apiRequest net endpoint options w = settle r (afterFirst endpoint options w) := by
  rw [apiRequest_eq]
  simp only [firstRequest] at h
  simp only [bind_run, Js.bind, getToken, getItem, fetch_some _ _ _ _ _ h, hst, if_false,
    pure_run]
  rfl

theorem apiRequest_expired (net : Backend) (endpoint : String) (options : Options) (w w2 : World)
    (r : Response) (h : net (w.sent ++ [firstRequest endpoint options w]) = some r)
    (hst : r.status = 401)
    (href : refreshSession net (afterFirst endpoint options w) = (.ok failure, w2)) :
    apiRequest net endpoint options w =
      (.error (.error "Session expired"),
       { localStorage := wiped w2.localStorage, href := "/auth", sent := w2.sent }) := by
  rw [apiRequest_eq]
  simp only [firstRequest] at h
  simp only [afterFirst, firstRequest] at href
  simp only [bind_run, Js.bind, getToken, getItem, fetch_some _ _ _ _ _ h, hst, if_true, href,
    failure, getProp, lookupField, liftExcept, pure_run, truthy, Bool.false_eq_true, if_false,
    removeToken, removeRefreshToken, removeUserData, removeItem, setHref, jsThrow, wiped]

theorem buildConfig_method (options : Options) (token : Option String) :
    (buildConfig options token).method = options.method := by
  unfold buildConfig
  split <;> rfl

theorem buildConfig_body (options : Options) (token : Option String) :
    (buildConfig options token).body = options.body := by
  unfold buildConfig
  split <;> rfl

theorem apiRequest_retried (net : Backend) (endpoint : String) (options : Options)
    (w w2 : World) (r : Response) (user : JVal)
    (h : net (w.sent ++ [firstRequest endpoint options w]) = some r)
    (hst : r.status = 401)
    (href : refreshSession net (afterFirst endpoint options w) = (.ok (successWith user), w2)) :
    apiRequest net endpoint options w =
      match net (w2.sent ++
          [retryRequest endpoint options w (templateText (w2.localStorage "auth_token"))]) with
      | some r3 =>
        settle r3 { w2 with sent := w2.sent ++
          [retryRequest endpoint options w (templateText (w2.localStorage "auth_token"))] }
      | none =>
        (.error .networkError, { w2 with sent := w2.sent ++
          [retryRequest endpoint options w (templateText (w2.localStorage "auth_token"))] }) := by
  rw [apiRequest_eq]
  simp only [firstRequest] at h
  simp only [afterFirst, firstRequest] at href
  simp only [bind_run, Js.bind, getToken, getItem, fetch_some _ _ _ _ _ h, hst, if_true, href,
    successWith, getProp, lookupField, liftExcept, pure_run, truthy, retryRequest]
  simp only [buildConfig_method, buildConfig_body]
  cases hn : net (w2.sent ++ [{ url := API_BASE_URL ++ endpoint, config :=
      { method := options.method,
        headers := setHeader "Authorization" ("Bearer " ++ templateText (w2.localStorage "auth_token"))
          (buildConfig options (w.localStorage "auth_token")).headers,
        body := options.body } }]) with
  | none => simp only [if_true, fetch_none _ _ _ _ hn]
  | some r3 => simp only [if_true, fetch_some _ _ _ _ _ hn]

theorem getHeader_setHeader_self (k v : String) (h : Headers) :
    getHeader k (setHeader k v h) = some v := by
  induction h with
  | nil => simp [setHeader, getHeader]
  | cons p rest ih =>
    obtain ⟨k', v'⟩ := p
    by_cases hk : k' = k
    · simp [setHeader, getHeader, hk]
    · simp [setHeader, getHeader, hk, ih]

theorem getHeader_setHeader_ne (k k' v : String) (h : Headers) (hne : k' ≠ k) :
    getHeader k (setHeader k' v h) = getHeader k h := by
  induction h with
  | nil => simp [setHeader, getHeader, hne]
  | cons p rest ih =>
    obtain ⟨k'', v''⟩ := p
    by_cases hk : k'' = k'
    · subst hk
      simp [setHeader, getHeader, hne]
    · by_cases hk2 : k'' = k
      · subst hk2
        simp [setHeader, getHeader, hk]
      · simp [setHeader, getHeader, hk, hk2, ih]

theorem getHeader_spread_none (k : String) (extra base : Headers)
    (hb : getHeader k base = none) (he : getHeader k extra = none) :
    getHeader k (spreadHeaders base extra) = none := by
  unfold spreadHeaders
  induction extra generalizing base with
  | nil => simpa using hb
  | cons p rest ih =>
    obtain ⟨k', v'⟩ := p
    have hk : k' ≠ k := by
      intro hk
      simp [getHeader, hk] at he
    have hrest : getHeader k rest = none := by
      simpa [getHeader, hk] using he
    simp only [List.foldl_cons]
    exact ih _ (by rw [getHeader_setHeader_ne k k' v' base hk]; exact hb) hrest

/-- The trace of one `apiRequest`: the first request alone; or the first request and one
refresh call; or these two and one re-issue of the first request. -/
theorem apiRequest_trace (net : Backend) (endpoint : String) (options : Options) (w : World) :
    (apiRequest net endpoint options w).2.sent = w.sent ++ [firstRequest endpoint options w] ∨
    ∃ t, w.localStorage "refresh_token" = some t ∧ t ≠ "" ∧
      ((apiRequest net endpoint options w).2.sent =
          w.sent ++ [firstRequest endpoint options w, refreshRequest t] ∨
       ∃ token, (apiRequest net endpoint options w).2.sent =
          w.sent ++ [firstRequest endpoint options w, refreshRequest t,
            retryRequest endpoint options w token]) := by
  cases h1 : net (w.sent ++ [firstRequest endpoint options w]) with
  | none =>
    left
    rw [apiRequest_rejected net endpoint options w h1]
    rfl
  | some r1 =>
    by_cases hst : r1.status = 401
    · rcases refreshSession_cases net (afterFirst endpoint options w) with
        ⟨_, hr⟩ | ⟨t, ht, hne, hr | ⟨r, data, user, a, b, _, _, _, _, _, hr⟩⟩
      · left
        rw [apiRequest_expired net endpoint options w _ r1 h1 hst hr]
        rfl
      · right
        refine ⟨t, ht, hne, Or.inl ?_⟩
        rw [apiRequest_expired net endpoint options w _ r1 h1 hst hr]
        simp [afterFirst]
      · right
        refine ⟨t, ht, hne, Or.inr ⟨templateText (stored (afterFirst endpoint options w) a b user
          "auth_token"), ?_⟩⟩
        rw [apiRequest_retried net endpoint options w _ r1 user h1 hst hr]
        split
        · rw [settle_world]
          simp [afterFirst]
        · simp [afterFirst]
    · left
      rw [apiRequest_direct net endpoint options w r1 h1 hst, settle_world]
      rfl

theorem stored_auth_token (w : World) (a b user : JVal) :
    stored w a b user "auth_token" = some (toStr a) := by
  simp [stored, Storage.setItem]

theorem stored_refresh_token (w : World) (a b user : JVal) :
    stored w a b user "refresh_token" = some (toStr b) := by
  simp [stored, Storage.setItem]

theorem stored_user_data (w : World) (a b user : JVal) :
    stored w a b user "user_data" = some ((jsonStringify user).getD "undefined") := by
  simp [stored, Storage.setItem]

theorem wiped_cleared (s : Storage) : cleared (wiped s) := by
  simp [cleared, wiped, Storage.removeItem]

/-- The trace of one `apiRequest`, with the token of the re-issue: it is the text of the
access token of a session the backend returned. -/
theorem apiRequest_trace_token (net : Backend) (endpoint : String) (options : Options)
    (w : World) :
    (apiRequest net endpoint options w).2.sent = w.sent ++ [firstRequest endpoint options w] ∨
    ∃ t, w.localStorage "refresh_token" = some t ∧ t ≠ "" ∧
      ((apiRequest net endpoint options w).2.sent =
          w.sent ++ [firstRequest endpoint options w, refreshRequest t] ∨
       ∃ sent r data user a, net sent = some r ∧ r.body = some data ∧
          getProp data "user" = .ok user ∧
          getProp (getPropOpt user "session") "access_token" = .ok a ∧
          (apiRequest net endpoint options w).2.sent =
            w.sent ++ [firstRequest endpoint options w, refreshRequest t,
              retryRequest endpoint options w (toStr a)]) := by
  cases h1 : net (w.sent ++ [firstRequest endpoint options w]) with
  | none =>
    left
    rw [apiRequest_rejected net endpoint options w h1]
    rfl
  | some r1 =>
    by_cases hst : r1.status = 401
    · rcases refreshSession_cases net (afterFirst endpoint options w) with
        ⟨_, hr⟩ | ⟨t, ht, hne, hr | ⟨r, data, user, a, b, hn, hb, hu, ha, _, hr⟩⟩
      · left
        rw [apiRequest_expired net endpoint options w _ r1 h1 hst hr]
        rfl
      · right
        refine ⟨t, ht, hne, Or.inl ?_⟩
        rw [apiRequest_expired net endpoint options w _ r1 h1 hst hr]
        simp [afterFirst]
      · right
        refine ⟨t, ht, hne, Or.inr ⟨_, r, data, user, a, hn, hb, hu, ha, ?_⟩⟩
        rw [apiRequest_retried net endpoint options w _ r1 user h1 hst hr]
        have htok : templateText (stored (afterFirst endpoint options w) a b user
            "auth_token") = toStr a := by
          rw [stored_auth_token]
          rfl
        simp only [htok]
        split
        · rw [settle_world]
          simp [afterFirst]
        · simp [afterFirst]
    · left
      rw [apiRequest_direct net endpoint options w r1 h1 hst, settle_world]
      rfl

/-! ## The claims -/

/-- C1: if the first response of `apiRequest` has status 401, a (non-empty) refresh token
`t` is stored, and the refresh endpoint answers ok with a body whose `success` is truthy
and whose `user.session` is present with the access token `a`, then the call issues the
first request, then exactly one `POST /auth/refresh`, then exactly one re-issue of the
first request (same URL, method and body, same other headers) whose `Authorization`
header is `Bearer ` followed by the text of `a` (that is `Bearer A2` for the string
`A2`): three network calls in total, in that order. -/
theorem apiRequest_refreshes_then_retries_once (net : Backend) (endpoint : String)
    (options : Options) (w : World) (t : String) (r1 r2 : Response) (data s user a : JVal)
    (ht : w.localStorage "refresh_token" = some t) (hne : t ≠ "")
    (h1 : net (w.sent ++ [firstRequest endpoint options w]) = some r1)
    (hst : r1.status = 401)
    (h2 : net (w.sent ++ [firstRequest endpoint options w, refreshRequest t]) = some r2)
    (hok : r2.ok = true) (hbody : r2.body = some data)
    (hs : getProp data "success" = .ok s) (hts : truthy s = true)
    (hu : getProp data "user" = .ok user)
    (hsess : truthy (getPropOpt user "session") = true)
    (ha : getProp (getPropOpt user "session") "access_token" = .ok a) :
    (apiRequest net endpoint options w).2.sent =
        w.sent ++ [firstRequest endpoint options w, refreshRequest t,
          retryRequest endpoint options w (toStr a)] ∧
      (refreshRequest t).url = API_BASE_URL ++ "/auth/refresh" ∧
      (refreshRequest t).config.method = some "POST" ∧
      (retryRequest endpoint options w (toStr a)).url = API_BASE_URL ++ endpoint ∧
      (retryRequest endpoint options w (toStr a)).config.method = options.method ∧
      (retryRequest endpoint options w (toStr a)).config.body = options.body ∧
      getHeader "Authorization" (retryRequest endpoint options w (toStr a)).config.headers =
        some ("Bearer " ++ toStr a) := by
  obtain ⟨b, hb⟩ := getProp_of_truthy _ "refresh_token" hsess
  have h2' : net ((afterFirst endpoint options w).sent ++ [refreshRequest t]) = some r2 := by
    simpa [afterFirst] using h2
  have hr := refreshSession_succeeds net (afterFirst endpoint options w) t r2 data s user a b
    ht hne h2' hok hbody hs hts hu hsess ha hb
  refine ⟨?_, rfl, rfl, rfl, rfl, rfl, getHeader_setHeader_self _ _ _⟩
  rw [apiRequest_retried net endpoint options w _ r1 user h1 hst hr]
  have htok : templateText (stored (afterFirst endpoint options w) a b user "auth_token") =
      toStr a := by
    rw [stored_auth_token]
    rfl
  simp only [stored] at htok
  simp only [htok]
  split
  · rw [settle_world]
    simp [afterFirst]
  · simp [afterFirst]

/-- C1 at the page `A1`/`R1` against a backend that answers 401, then the session
`A2`/`R2`: the three calls, the last one bearing `A2`. -/
theorem apiRequest_refreshes_then_retries_once_witness :
    (apiRequest expiredOnce "/api/profile" {} signedInWorld).2.sent =
        [firstRequest "/api/profile" {} signedInWorld, refreshRequest "R1",
          retryRequest "/api/profile" {} signedInWorld "A2"] ∧
      getHeader "Authorization"
        (retryRequest "/api/profile" {} signedInWorld "A2").config.headers =
        some "Bearer A2" :=
  have h := apiRequest_refreshes_then_retries_once expiredOnce "/api/profile" {} signedInWorld
    "R1" { status := 401, body := some (.obj [("error", .str "Token expired")]) }
    { status := 200, body := some (sessionBody "A2" "R2") } (sessionBody "A2" "R2")
    (.bool true)
    (.obj [("session", .obj [("access_token", .str "A2"), ("refresh_token", .str "R2")])])
    (.str "A2") rfl (by decide) rfl rfl rfl rfl rfl rfl rfl rfl rfl rfl
  ⟨h.1, h.2.2.2.2.2.2⟩

/-- C2 (the code at its failing input): with `A1`/`R1` stored, a first answer 401, a
successful refresh to `A2`/`R2` and a second 401, `apiRequest` throws the server's
message and leaves the refreshed access token, refresh token and user snapshot in
storage; nothing is cleared and `window.location.href` is not changed. -/
theorem apiRequest_second_401_keeps_credential :
    (apiRequest alwaysUnauthorized "/api/profile" {} signedInWorld).1 =
        .error (.error "Unauthorized") ∧
      (apiRequest alwaysUnauthorized "/api/profile" {} signedInWorld).2.localStorage
        "auth_token" = some "A2" ∧
      (apiRequest alwaysUnauthorized "/api/profile" {} signedInWorld).2.localStorage
        "refresh_token" = some "R2" ∧
      (apiRequest alwaysUnauthorized "/api/profile" {} signedInWorld).2.localStorage
        "user_data" = jsonStringify
          (.obj [("session", .obj [("access_token", .str "A2"), ("refresh_token", .str "R2")])]) ∧
      (apiRequest alwaysUnauthorized "/api/profile" {} signedInWorld).2.href = "/" ∧
      (apiRequest alwaysUnauthorized "/api/profile" {} signedInWorld).2.sent.length = 3 :=
  ⟨rfl, by decide, by decide, by decide, by decide, by decide⟩

theorem apiRequest_sent_first (net : Backend) (endpoint : String) (options : Options)
    (w : World) :
    ∃ rest, (apiRequest net endpoint options w).2.sent =
      w.sent ++ firstRequest endpoint options w :: rest := by
  rcases apiRequest_trace net endpoint options w with h | ⟨t, _, _, h | ⟨token, h⟩⟩
  · exact ⟨[], h⟩
  · exact ⟨[refreshRequest t], h⟩
  · exact ⟨[refreshRequest t, retryRequest endpoint options w token], h⟩

/-- C3: when the first response of `apiRequest` is 401 and the refresh fails (no refresh
token stored, or the refresh call has a failing outcome), the call throws
`Error('Session expired')`, the access token, refresh token and user snapshot are absent
afterwards, the page is sent to `/auth`, and the original request is not re-issued: the
trace is the first request alone (no refresh token) or the first request followed by the
one refresh call. -/
theorem apiRequest_refresh_failure_is_terminal (net : Backend) (endpoint : String)
    (options : Options) (w : World) (r1 : Response)
    (h1 : net (w.sent ++ [firstRequest endpoint options w]) = some r1)
    (hst : r1.status = 401)
    (hfail : itemTruthy (w.localStorage "refresh_token") = false ∨
      ∃ t, w.localStorage "refresh_token" = some t ∧ t ≠ "" ∧
        RefreshFails (net (w.sent ++ [firstRequest endpoint options w, refreshRequest t]))) :
    (apiRequest net endpoint options w).1 = .error (.error "Session expired") ∧
      cleared (apiRequest net endpoint options w).2.localStorage ∧
      (apiRequest net endpoint options w).2.href = "/auth" ∧
      (itemTruthy (w.localStorage "refresh_token") = false →
        (apiRequest net endpoint options w).2.sent =
          w.sent ++ [firstRequest endpoint options w]) ∧
      (∀ t, w.localStorage "refresh_token" = some t → t ≠ "" →
        (apiRequest net endpoint options w).2.sent =
          w.sent ++ [firstRequest endpoint options w, refreshRequest t]) := by
  rcases hfail with hno | ⟨t, ht, hne, hf⟩
  · have hr := refreshSession_no_token net (afterFirst endpoint options w) hno
    rw [apiRequest_expired net endpoint options w _ r1 h1 hst hr]
    refine ⟨rfl, wiped_cleared _, rfl, fun _ => rfl, ?_⟩
    intro t ht hne
    simp [ht, itemTruthy, hne] at hno
  · have hf' : RefreshFails (net ((afterFirst endpoint options w).sent ++ [refreshRequest t])) := by
      simpa [afterFirst] using hf
    have hr := refreshSession_fails net (afterFirst endpoint options w) t ht hne hf'
    rw [apiRequest_expired net endpoint options w _ r1 h1 hst hr]
    refine ⟨rfl, wiped_cleared _, rfl, ?_, ?_⟩
    · intro hno
      simp [ht, itemTruthy, hne] at hno
    · intro t' ht' _
      rw [ht] at ht'
      cases ht'
      simp [afterFirst]

/-- C3 at the page `A1`/`R1` against a backend that answers every call 401: the refresh
call fails, the call throws `Session expired` and the storage is cleared. -/
theorem apiRequest_refresh_failure_is_terminal_witness :
    (apiRequest rejecting "/api/profile" {} signedInWorld).1 =
        .error (.error "Session expired") ∧
      cleared (apiRequest rejecting "/api/profile" {} signedInWorld).2.localStorage ∧
      (apiRequest rejecting "/api/profile" {} signedInWorld).2.sent =
        [firstRequest "/api/profile" {} signedInWorld, refreshRequest "R1"] :=
  have h := apiRequest_refresh_failure_is_terminal rejecting "/api/profile" {} signedInWorld
    { status := 401, body := some (.obj [("error", .str "Unauthorized")]) } rfl rfl
    (Or.inr ⟨"R1", rfl, by decide, Or.inr ⟨_, rfl, Or.inl rfl⟩⟩)
  ⟨h.1, h.2.1, h.2.2.2.2 "R1" rfl (by decide)⟩

/-- C4: for every endpoint, options, storage state and backend, one `apiRequest` call
ends having issued the first request, then at most one refresh call, then at most one
re-issue of the first request, and a re-issue only after a refresh call: at most two
sends to the endpoint and at most one `POST /auth/refresh`, whatever the answer to the
re-issued request is. -/
theorem apiRequest_at_most_one_refresh_and_retry (net : Backend) (endpoint : String)
    (options : Options) (w : World) :
    ∃ refreshes retries : List Request,
      (apiRequest net endpoint options w).2.sent =
        w.sent ++ [firstRequest endpoint options w] ++ refreshes ++ retries ∧
      refreshes.length ≤ 1 ∧ retries.length ≤ 1 ∧ retries.length ≤ refreshes.length ∧
      (∀ q ∈ refreshes, ∃ t, w.localStorage "refresh_token" = some t ∧ q = refreshRequest t) ∧
      (∀ q ∈ retries, ∃ token, q = retryRequest endpoint options w token) := by
  rcases apiRequest_trace net endpoint options w with h | ⟨t, ht, _, h | ⟨token, h⟩⟩
  · exact ⟨[], [], by simpa using h, by simp, by simp, by simp, by simp, by simp⟩
  · exact ⟨[refreshRequest t], [], by simpa using h, by simp, by simp, by simp,
      by simpa using ⟨t, ht, rfl⟩, by simp⟩
  · exact ⟨[refreshRequest t], [retryRequest endpoint options w token], by simpa using h,
      by simp, by simp, by simp, by simpa using ⟨t, ht, rfl⟩, by simp⟩

/-- C5: for every endpoint and every options object (also one that carries its own
`Authorization` header), if a non-empty access token `t` is stored when `apiRequest` is
called, the first outgoing request goes to `API_BASE_URL + endpoint` and its headers
object holds `Authorization` with the value `Bearer ` followed by `t`, exactly. -/
theorem apiRequest_attaches_bearer (net : Backend) (endpoint : String) (options : Options)
    (w : World) (t : String) (ht : w.localStorage "auth_token" = some t) (hne : t ≠ "") :
    (∃ rest, (apiRequest net endpoint options w).2.sent =
        w.sent ++ firstRequest endpoint options w :: rest) ∧
      (firstRequest endpoint options w).url = API_BASE_URL ++ endpoint ∧
      getHeader "Authorization" (firstRequest endpoint options w).config.headers =
        some ("Bearer " ++ t) := by
  refine ⟨apiRequest_sent_first net endpoint options w, rfl, ?_⟩
  have htr : itemTruthy (some t) = true := by simp [itemTruthy, hne]
  simp only [firstRequest, buildConfig, ht, htr, if_true, templateText]
  exact getHeader_setHeader_self _ _ _

/-- C5 with the token `A1` stored and options that bring their own `Authorization`
header: the first request bears `A1`, not the caller's value. -/
theorem apiRequest_attaches_bearer_witness :
    (∃ rest, (apiRequest expiredOnce "/api/profile"
          { headers := some [("Authorization", "Basic xyz")] } signedInWorld).2.sent =
        signedInWorld.sent ++ firstRequest "/api/profile"
          { headers := some [("Authorization", "Basic xyz")] } signedInWorld :: rest) ∧
      getHeader "Authorization" (firstRequest "/api/profile"
          { headers := some [("Authorization", "Basic xyz")] } signedInWorld).config.headers =
        some "Bearer A1" :=
  have h := apiRequest_attaches_bearer expiredOnce "/api/profile"
    { headers := some [("Authorization", "Basic xyz")] } signedInWorld "A1" rfl (by decide)
  ⟨h.1, h.2.2⟩

/-- C6: for every endpoint and every options object whose headers hold no
`Authorization` entry, if no access token is stored (absent or empty) when `apiRequest`
is called, the request is still issued, to `API_BASE_URL + endpoint`, and its headers
object has no `Authorization` entry. -/
theorem apiRequest_without_token_sends_no_authorization (net : Backend) (endpoint : String)
    (options : Options) (w : World)
    (hno : itemTruthy (w.localStorage "auth_token") = false)
    (hopt : getHeader "Authorization" (options.headers.getD []) = none) :
    (∃ rest, (apiRequest net endpoint options w).2.sent =
        w.sent ++ firstRequest endpoint options w :: rest) ∧
      (firstRequest endpoint options w).url = API_BASE_URL ++ endpoint ∧
      getHeader "Authorization" (firstRequest endpoint options w).config.headers = none := by
  refine ⟨apiRequest_sent_first net endpoint options w, rfl, ?_⟩
  simp only [firstRequest, buildConfig, hno, Bool.false_eq_true, if_false]
  exact getHeader_spread_none _ _ _ (by simp [getHeader]) hopt

/-- C6 on the signed-out page with a caller header `Accept`: the request goes out
without `Authorization`. -/
theorem apiRequest_without_token_sends_no_authorization_witness :
    (∃ rest, (apiRequest expiredOnce "/api/filters"
          { headers := some [("Accept", "application/json")] } signedOutWorld).2.sent =
        signedOutWorld.sent ++ firstRequest "/api/filters"
          { headers := some [("Accept", "application/json")] } signedOutWorld :: rest) ∧
      getHeader "Authorization" (firstRequest "/api/filters"
          { headers := some [("Accept", "application/json")] } signedOutWorld).config.headers =
        none :=
  have h := apiRequest_without_token_sends_no_authorization expiredOnce "/api/filters"
    { headers := some [("Accept", "application/json")] } signedOutWorld rfl rfl
  ⟨h.1, h.2.2⟩

theorem obj_of_truthy_prop (user : JVal) (k : String)
    (h : truthy (getPropOpt user k) = true) : ∃ fields, user = .obj fields := by
  cases user <;> simp_all [truthy, getPropOpt]

/-- C8 (as stated, refuted): with `A1`/`R1` stored, a refresh answer that is ok with
`success: true` and a session object that carries no tokens is accepted: `refreshSession`
returns `\x7b success: true, user \x7d` and stores the text `undefined` under both token
keys, which is not the session's `access_token` (that is `undefined`, no string at all);
the stored access token is then truthy. -/
theorem refreshSession_stores_text_of_missing_tokens :
    truthy (getPropOpt (.obj [("session", .obj [])]) "session") = true ∧
      getProp (getPropOpt (.obj [("session", .obj [])]) "session") "access_token" =
        .ok .undefined ∧
      (refreshSession tokenlessSession signedInWorld).1 =
        .ok (successWith (.obj [("session", .obj [])])) ∧
      (refreshSession tokenlessSession signedInWorld).2.localStorage "auth_token" =
        some "undefined" ∧
      (refreshSession tokenlessSession signedInWorld).2.localStorage "refresh_token" =
        some "undefined" ∧
      isAuthenticated (refreshSession tokenlessSession signedInWorld).2 =
        (.ok true, (refreshSession tokenlessSession signedInWorld).2) := by
  refine ⟨rfl, rfl, rfl, by decide, by decide, rfl⟩

/-- C8 (amended): with a (non-empty) refresh token `t` stored, if the refresh endpoint
answers ok with a body `data` whose `success` is truthy and whose `user.session` is
present and carries the strings `A` and `B` as `access_token` and `refresh_token`, then
`refreshSession` returns `\x7b success: true, user: data.user \x7d`, and afterwards the
stored access token is `A`, the stored refresh token is `B` and the stored user snapshot
is the JSON text of `data.user`: the three keys are replaced in the same call. -/
theorem refreshSession_replaces_credential_and_snapshot (net : Backend) (w : World)
    (t : String) (r : Response) (data s user : JVal) (A B : String)
    (ht : w.localStorage "refresh_token" = some t) (hne : t ≠ "")
    (hnet : net (w.sent ++ [refreshRequest t]) = some r) (hok : r.ok = true)
    (hbody : r.body = some data)
    (hs : getProp data "success" = .ok s) (hts : truthy s = true)
    (hu : getProp data "user" = .ok user)
    (hsess : truthy (getPropOpt user "session") = true)
    (ha : getProp (getPropOpt user "session") "access_token" = .ok (.str A))
    (hb : getProp (getPropOpt user "session") "refresh_token" = .ok (.str B)) :
    (refreshSession net w).1 = .ok (successWith user) ∧
      (refreshSession net w).2.localStorage "auth_token" = some A ∧
      (refreshSession net w).2.localStorage "refresh_token" = some B ∧
      (refreshSession net w).2.localStorage "user_data" = jsonStringify user := by
  rw [refreshSession_succeeds net w t r data s user (.str A) (.str B) ht hne hnet hok hbody hs
    hts hu hsess ha hb]
  refine ⟨rfl, stored_auth_token w (.str A) (.str B) user,
    stored_refresh_token w (.str A) (.str B) user, ?_⟩
  obtain ⟨fields, rfl⟩ := obj_of_truthy_prop user "session" hsess
  have h := stored_user_data w (.str A) (.str B) (.obj fields)
  simp only [stored] at h
  simp only [h]
  simp [jsonStringify]

/-- C8 (amended) at the page `A1`/`R1` against a backend that answers with the session
`A2`/`R2`: the stored tokens become `A2` and `R2` and the snapshot is the user object's
text. -/
theorem refreshSession_replaces_credential_and_snapshot_witness :
    (refreshSession renewing signedInWorld).2.localStorage "auth_token" = some "A2" ∧
      (refreshSession renewing signedInWorld).2.localStorage "refresh_token" = some "R2" ∧
      (refreshSession renewing signedInWorld).2.localStorage "user_data" =
        jsonStringify
          (.obj [("session", .obj [("access_token", .str "A2"), ("refresh_token", .str "R2")])]) :=
  (refreshSession_replaces_credential_and_snapshot renewing signedInWorld "R1"
    { status := 200, body := some (sessionBody "A2" "R2") } (sessionBody "A2" "R2") (.bool true)
    (.obj [("session", .obj [("access_token", .str "A2"), ("refresh_token", .str "R2")])])
    "A2" "R2" rfl (by decide) rfl rfl rfl rfl rfl rfl rfl rfl rfl).2

/-- C9: with a (non-empty) refresh token stored, for every failing outcome of the refresh
call (the fetch rejects, the response is not ok, the body is not valid JSON,
`data.success` is falsy or unreadable, or `data.user?.session` is falsy),
`refreshSession` returns `\x7b success: false \x7d` without throwing and leaves the whole
`localStorage`, so all three keys, exactly as it was. -/
theorem refreshSession_failure_leaves_storage (net : Backend) (w : World) (t : String)
    (ht : w.localStorage "refresh_token" = some t) (hne : t ≠ "")
    (hfail : RefreshFails (net (w.sent ++ [refreshRequest t]))) :
    (refreshSession net w).1 = .ok failure ∧
      (refreshSession net w).2.localStorage = w.localStorage := by
  rw [refreshSession_fails net w t ht hne hfail]
  exact ⟨rfl, rfl⟩

/-- C9 at the page `A1`/`R1` against a backend that answers the refresh call 401. -/
theorem refreshSession_failure_leaves_storage_witness :
    (refreshSession rejecting signedInWorld).1 = .ok failure ∧
      (refreshSession rejecting signedInWorld).2.localStorage = signedInWorld.localStorage :=
  refreshSession_failure_leaves_storage rejecting signedInWorld "R1" rfl (by decide)
    (Or.inr ⟨_, rfl, Or.inl rfl⟩)

/-- C10: with no refresh token stored (absent or empty), `refreshSession` returns
`\x7b success: false \x7d` and leaves the world as it was: no network call, the access
token and the user snapshot untouched.  When `apiRequest` reaches the same condition
after a first response 401, it clears the access token, the refresh token and the user
snapshot (having sent the first request only). -/
theorem refreshSession_without_refresh_token (net : Backend) (w : World)
    (hno : itemTruthy (w.localStorage "refresh_token") = false) :
    refreshSession net w = (.ok failure, w) ∧
      ∀ endpoint options r1,
        net (w.sent ++ [firstRequest endpoint options w]) = some r1 → r1.status = 401 →
        cleared (apiRequest net endpoint options w).2.localStorage ∧
          (apiRequest net endpoint options w).2.sent =
            w.sent ++ [firstRequest endpoint options w] := by
  refine ⟨refreshSession_no_token net w hno, ?_⟩
  intro endpoint options r1 h1 hst
  have hr := refreshSession_no_token net (afterFirst endpoint options w) hno
  rw [apiRequest_expired net endpoint options w _ r1 h1 hst hr]
  exact ⟨wiped_cleared _, rfl⟩

/-- C10 on a page that holds the access token `A1` but no refresh token. -/
theorem refreshSession_without_refresh_token_witness :
    refreshSession rejecting { signedInWorld with
        localStorage := signedIn.removeItem "refresh_token" } =
      (.ok failure, { signedInWorld with localStorage := signedIn.removeItem "refresh_token" }) ∧
    cleared (apiRequest rejecting "/api/profile" {} { signedInWorld with
        localStorage := signedIn.removeItem "refresh_token" }).2.localStorage :=
  have h := refreshSession_without_refresh_token rejecting
    { signedInWorld with localStorage := signedIn.removeItem "refresh_token" } rfl
  ⟨h.1, (h.2 "/api/profile" {} _ rfl rfl).1⟩

theorem credentialOk_stored (w : World) (a b user : JVal) (ha : toStr a ≠ "")
    (hb : toStr b ≠ "") : credentialOk (stored w a b user) = true := by
  simp [credentialOk, stored_auth_token, stored_refresh_token, ha, hb]

theorem credentialOk_wiped (s : Storage) : credentialOk (wiped s) = true := by
  simp [credentialOk, wiped, Storage.removeItem]

/-- The storage after `authAPI.login` is the storage before, or the three keys were set
from a session the backend returned. -/
theorem login_storage (net : Backend) (email password : JVal) (w : World) :
    (authAPI.login net email password w).2.localStorage = w.localStorage ∨
    ∃ sent r data user a b, net sent = some r ∧ r.body = some data ∧
      getProp data "user" = .ok user ∧
      getProp (getPropOpt user "session") "access_token" = .ok a ∧
      getProp (getPropOpt user "session") "refresh_token" = .ok b ∧
      (authAPI.login net email password w).2.localStorage = stored w a b user := by
  unfold authAPI.login
  simp only [bind_run, Js.bind]
  cases hn : net (w.sent ++
      [{ url := API_BASE_URL ++ "/auth/login", config := loginConfig email password }]) with
  | none => simp [fetch_none _ _ _ _ hn]
  | some r =>
    simp only [fetch_some _ _ _ _ _ hn, Response.json]
    cases hb : r.body with
    | none => simp [jsThrow]
    | some data =>
      simp only [pure_run]
      cases hok : r.ok with
      | false =>
        cases he : getProp data "error" <;> simp [liftExcept, jsThrow, Js.bind]
      | true =>
        simp only [if_true, bind_run, Js.bind]
        cases hs : getProp data "success" with
        | error e => simp [liftExcept, jsThrow]
        | ok s =>
          simp only [liftExcept, pure_run]
          cases hts : truthy s with
          | false =>
            cases he : getProp data "error" <;> simp [liftExcept, jsThrow, Js.bind]
          | true =>
            simp only [if_true, bind_run, Js.bind]
            cases hu : getProp data "user" with
            | error e => simp [liftExcept, jsThrow]
            | ok user =>
              simp only [liftExcept, pure_run]
              cases hse : truthy (getPropOpt user "session") with
              | false =>
                cases he : getProp data "error" <;> simp [liftExcept, jsThrow, Js.bind]
              | true =>
                obtain ⟨a, ha⟩ := getProp_of_truthy _ "access_token" hse
                obtain ⟨b, hb'⟩ := getProp_of_truthy _ "refresh_token" hse
                right
                refine ⟨_, r, data, user, a, b, hn, hb, hu, ha, hb', ?_⟩
                simp only [if_true, bind_run, Js.bind, hu, ha, hb', liftExcept, pure_run,
                  setToken, setRefreshToken, setUserData, setItem, stored]

/-- The storage after `apiRequest` is the storage before, or the three keys are gone, or
the three keys were set from a session the backend returned. -/
theorem apiRequest_storage (net : Backend) (endpoint : String) (options : Options)
    (w : World) :
    (apiRequest net endpoint options w).2.localStorage = w.localStorage ∨
    (apiRequest net endpoint options w).2.localStorage = wiped w.localStorage ∨
    ∃ sent r data user a b, net sent = some r ∧ r.body = some data ∧
      getProp data "user" = .ok user ∧
      getProp (getPropOpt user "session") "access_token" = .ok a ∧
      getProp (getPropOpt user "session") "refresh_token" = .ok b ∧
      (apiRequest net endpoint options w).2.localStorage = stored w a b user := by
  cases h1 : net (w.sent ++ [firstRequest endpoint options w]) with
  | none =>
    left
    rw [apiRequest_rejected net endpoint options w h1]
    rfl
  | some r1 =>
    by_cases hst : r1.status = 401
    · rcases refreshSession_cases net (afterFirst endpoint options w) with
        ⟨_, hr⟩ | ⟨t, ht, hne, hr | ⟨r, data, user, a, b, hn, hb, hu, ha, hb', hr⟩⟩
      · right; left
        rw [apiRequest_expired net endpoint options w _ r1 h1 hst hr]
        rfl
      · right; left
        rw [apiRequest_expired net endpoint options w _ r1 h1 hst hr]
        rfl
      · right; right
        refine ⟨_, r, data, user, a, b, hn, hb, hu, ha, hb', ?_⟩
        rw [apiRequest_retried net endpoint options w _ r1 user h1 hst hr]
        split
        · rw [settle_world]
          rfl
        · rfl
    · left
      rw [apiRequest_direct net endpoint options w r1 h1 hst, settle_world]
      rfl

theorem toStr_ne_empty (a : JVal) (h : ∃ s, a = .str s ∧ s ≠ "") : toStr a ≠ "" := by
  obtain ⟨s, rfl, hs⟩ := h
  simpa [toStr] using hs

/-- C7 (as stated, refuted): from the signed-out page, where the Credential is fully
absent, `authAPI.login` against a backend whose session carries the access token `""` and
the refresh token `R2` persists an empty access token beside a non-empty refresh token,
a partial Credential. -/
theorem login_persists_partial_credential :
    credentialOk signedOutWorld.localStorage = true ∧
      (authAPI.login emptyAccessToken (.str "user@example.com") (.str "secret")
        signedOutWorld).2.localStorage "auth_token" = some "" ∧
      (authAPI.login emptyAccessToken (.str "user@example.com") (.str "secret")
        signedOutWorld).2.localStorage "refresh_token" = some "R2" ∧
      credentialOk (authAPI.login emptyAccessToken (.str "user@example.com") (.str "secret")
        signedOutWorld).2.localStorage = false := by
  decide

/-- C7 (amended): if every session the backend returns carries an access token and a
refresh token that are non-empty strings, then from every storage state in which the
Credential is fully present or fully absent, the storage after `authAPI.login`,
`refreshSession`, `apiRequest` or `authAPI.logout` again holds a Credential that is fully
present or fully absent. -/
theorem credential_invariant_preserved (net : Backend) (w : World)
    (hnet : TokensNonEmpty net) (hinv : credentialOk w.localStorage = true) :
    (∀ email password,
        credentialOk (authAPI.login net email password w).2.localStorage = true) ∧
      credentialOk (refreshSession net w).2.localStorage = true ∧
      (∀ endpoint options,
        credentialOk (apiRequest net endpoint options w).2.localStorage = true) ∧
      credentialOk (authAPI.logout w).2.localStorage = true := by
  refine ⟨?_, ?_, ?_, ?_⟩
  · intro email password
    rcases login_storage net email password w with h | ⟨sent, r, data, user, a, b, hn, hb, hu,
      ha, hb', h⟩
    · rw [h]; exact hinv
    · rw [h]
      exact credentialOk_stored w a b user
        (toStr_ne_empty a (hnet sent r data user a hn hb hu (Or.inl ha)))
        (toStr_ne_empty b (hnet sent r data user b hn hb hu (Or.inr hb')))
  · rcases refreshSession_cases net w with ⟨_, hr⟩ | ⟨t, _, _, hr | ⟨r, data, user, a, b, hn,
      hb, hu, ha, hb', hr⟩⟩
    · rw [hr]; exact hinv
    · rw [hr]; exact hinv
    · rw [hr]
      exact credentialOk_stored w a b user
        (toStr_ne_empty a (hnet _ r data user a hn hb hu (Or.inl ha)))
        (toStr_ne_empty b (hnet _ r data user b hn hb hu (Or.inr hb')))
  · intro endpoint options
    rcases apiRequest_storage net endpoint options w with h | h | ⟨sent, r, data, user, a, b,
      hn, hb, hu, ha, hb', h⟩
    · rw [h]; exact hinv
    · rw [h]; exact credentialOk_wiped _
    · rw [h]
      exact credentialOk_stored w a b user
        (toStr_ne_empty a (hnet sent r data user a hn hb hu (Or.inl ha)))
        (toStr_ne_empty b (hnet sent r data user b hn hb hu (Or.inr hb')))
  · exact credentialOk_wiped _

theorem renewing_tokensNonEmpty : TokensNonEmpty renewing := by
  intro sent r data user a hn hb hu ha
  simp only [renewing, Option.some.injEq] at hn
  subst hn
  simp only [Option.some.injEq] at hb
  subst hb
  simp only [sessionBody, getProp, lookupField, Except.ok.injEq] at hu
  simp at hu
  subst hu
  simp [getPropOpt, getProp, lookupField] at ha
  rcases ha with ha | ha <;> subst ha <;> simp

/-- C7 (amended) at the page `A1`/`R1` against a backend that answers every call with the
session `A2`/`R2`. -/
theorem credential_invariant_preserved_witness :
    credentialOk signedInWorld.localStorage = true ∧
      credentialOk (authAPI.login renewing (.str "user@example.com") (.str "secret")
        signedInWorld).2.localStorage = true ∧
      credentialOk (refreshSession renewing signedInWorld).2.localStorage = true ∧
      credentialOk (apiRequest renewing "/api/profile" {} signedInWorld).2.localStorage = true ∧
      credentialOk (authAPI.logout signedInWorld).2.localStorage = true :=
  have h := credential_invariant_preserved renewing signedInWorld renewing_tokensNonEmpty
    (by decide)
  ⟨by decide, h.1 _ _, h.2.1, h.2.2.1 _ _, h.2.2.2⟩

theorem jsonStringify_obj_ne_empty (fields : List (String × JVal)) (text : String)
    (h : jsonStringify (.obj fields) = some text) : text ≠ "" := by
  simp only [jsonStringify, Option.some.injEq] at h
  intro he
  rw [he] at h
  have := congrArg String.length h
  simp only [String.length_append] at this
  have h1 : ("\x7b" : String).length = 1 := by decide
  have h2 : ("" : String).length = 0 := by decide
  omega

theorem login_succeeds (net : Backend) (email password : JVal) (w : World) (r : Response)
    (data s user a b : JVal)
    (hnet : net (w.sent ++ [loginRequest email password]) = some r) (hok : r.ok = true)
    (hbody : r.body = some data)
    (hs : getProp data "success" = .ok s) (hts : truthy s = true)
    (hu : getProp data "user" = .ok user) (hsess : truthy (getPropOpt user "session") = true)
    (ha : getProp (getPropOpt user "session") "access_token" = .ok a)
    (hb : getProp (getPropOpt user "session") "refresh_token" = .ok b) :
    authAPI.login net email password w =
      (.ok (successWith user),
       { localStorage := stored w a b user, href := w.href,
         sent := w.sent ++ [loginRequest email password] }) := by
  simp only [loginRequest] at hnet
  simp only [authAPI.login, bind_run, Js.bind, fetch_some _ _ _ _ _ hnet, Response.json, hbody,
    pure_run, hok, if_true, hs, liftExcept, hts, hu, hsess, ha, hb, setToken, setRefreshToken,
    setUserData, setItem, stored, loginRequest]

/-- C11: for every email and password, if the login endpoint answers ok with a body
`data` whose `success` is truthy and whose `user.session` is present with the strings `A`
and `B` as `access_token` and `refresh_token`, then `authAPI.login` returns
`\x7b success: true, user: data.user \x7d`, the stored access token is `A`, the stored
refresh token is `B`, the stored user snapshot is the JSON text of `data.user`, and
`getUserData` reads it back as `data.user` for every `JSON.parse` that reads that text
back. -/
theorem login_stores_credential_and_snapshot (net : Backend) (email password : JVal)
    (w : World) (r : Response) (data s user : JVal) (A B : String)
    (parse : String → Except Thrown JVal)
    (hnet : net (w.sent ++ [loginRequest email password]) = some r) (hok : r.ok = true)
    (hbody : r.body = some data)
    (hs : getProp data "success" = .ok s) (hts : truthy s = true)
    (hu : getProp data "user" = .ok user) (hsess : truthy (getPropOpt user "session") = true)
    (ha : getProp (getPropOpt user "session") "access_token" = .ok (.str A))
    (hb : getProp (getPropOpt user "session") "refresh_token" = .ok (.str B))
    (hparse : ∀ text, jsonStringify user = some text → parse text = .ok user) :
    (authAPI.login net email password w).1 = .ok (successWith user) ∧
      (authAPI.login net email password w).2.localStorage "auth_token" = some A ∧
      (authAPI.login net email password w).2.localStorage "refresh_token" = some B ∧
      (authAPI.login net email password w).2.localStorage "user_data" = jsonStringify user ∧
      (getUserData parse (authAPI.login net email password w).2).1 = .ok user := by
  rw [login_succeeds net email password w r data s user (.str A) (.str B) hnet hok hbody hs hts
    hu hsess ha hb]
  obtain ⟨fields, rfl⟩ := obj_of_truthy_prop user "session" hsess
  obtain ⟨text, htext⟩ : ∃ text, jsonStringify (.obj fields) = some text := by
    simp [jsonStringify]
  have hne := jsonStringify_obj_ne_empty fields text htext
  have hud : stored w (.str A) (.str B) (.obj fields) "user_data" = some text := by
    rw [stored_user_data, htext]
    rfl
  refine ⟨rfl, stored_auth_token w (.str A) (.str B) (.obj fields),
    stored_refresh_token w (.str A) (.str B) (.obj fields), ?_, ?_⟩
  · rw [htext]
    exact hud
  · simp only [getUserData, bind_run, Js.bind, getItem, hud, itemTruthy, templateText]
    simp [hne, hparse text htext, liftExcept]

/-- C11 at the example of the specification: logging `user@example.com` in against a
backend that returns the session `A`/`B` stores `A` and `B` and the user object, which
reads back as returned. -/
theorem login_stores_credential_and_snapshot_witness :
    (authAPI.login loginStub (.str "user@example.com") (.str "correct-password")
        signedOutWorld).2.localStorage "auth_token" = some "A" ∧
      (authAPI.login loginStub (.str "user@example.com") (.str "correct-password")
        signedOutWorld).2.localStorage "refresh_token" = some "B" ∧
      (getUserData jsonParse (authAPI.login loginStub (.str "user@example.com")
        (.str "correct-password") signedOutWorld).2).1 =
        .ok (.obj [("session", .obj [("access_token", .str "A"), ("refresh_token", .str "B")]),
          ("email", .str "user@example.com")]) :=
  have h := login_stores_credential_and_snapshot loginStub (.str "user@example.com")
    (.str "correct-password") signedOutWorld { status := 200, body := some exampleLoginBody }
    exampleLoginBody (.bool true)
    (.obj [("session", .obj [("access_token", .str "A"), ("refresh_token", .str "B")]),
      ("email", .str "user@example.com")])
    "A" "B" jsonParse rfl rfl rfl rfl rfl rfl rfl rfl rfl
    (by
      intro text htext
      have ht : text = "\x7b\"session\":\x7b\"access_token\":\"A\",\"refresh_token\":\"B\"\x7d,\"email\":\"user@example.com\"\x7d" :=
        (Option.some.inj htext).symm
      subst ht
      rfl)
  ⟨h.2.1, h.2.2.1, h.2.2.2.2⟩

theorem getProp_of_not_nullish (data : JVal) (k : String) (hn : data ≠ .null)
    (hu : data ≠ .undefined) : ∃ v, getProp data k = .ok v := by
  cases data <;> simp_all [getProp]

/-- C12 (as stated, refuted): a login response with status 401 whose JSON body is `null`
makes `authAPI.login` throw a `TypeError` (at the read of `data.error`) instead of
resolving to a failure result. -/
theorem login_throws_on_null_body :
    (authAPI.login nullBody (.str "user@example.com") (.str "wrong-password")
      signedOutWorld).1 = .error .typeError := by
  rfl

/-- C12 (amended): for every response of the login endpoint that carries a JSON body
`data` other than `null` but is not a success (the status is not ok, or `data.success`
is falsy, or `data.user?.session` is falsy), `authAPI.login` does not throw and resolves
to `\x7b success: false, error: e \x7d`, where `e` is `data.error` as the server sent it
when it is truthy and the generic `Login failed` otherwise; the storage is left as it
was. -/
theorem login_failure_is_reported (net : Backend) (email password : JVal) (w : World)
    (r : Response) (data : JVal)
    (hnet : net (w.sent ++ [loginRequest email password]) = some r)
    (hbody : r.body = some data) (hnull : data ≠ .null) (hundef : data ≠ .undefined)
    (hfail : r.ok = false ∨
      (∀ s, getProp data "success" = .ok s → truthy s = false) ∨
      (∀ u, getProp data "user" = .ok u → truthy (getPropOpt u "session") = false)) :
    ∃ error, getProp data "error" = .ok error ∧
      (authAPI.login net email password w).1 =
        .ok (.obj [("success", .bool false),
          ("error", if truthy error then error else .str "Login failed")]) ∧
      (authAPI.login net email password w).2.localStorage = w.localStorage := by
  obtain ⟨error, he⟩ := getProp_of_not_nullish data "error" hnull hundef
  obtain ⟨s, hs⟩ := getProp_of_not_nullish data "success" hnull hundef
  obtain ⟨u, hu⟩ := getProp_of_not_nullish data "user" hnull hundef
  refine ⟨error, he, ?_⟩
  simp only [loginRequest] at hnet
  simp only [authAPI.login, bind_run, Js.bind, fetch_some _ _ _ _ _ hnet, Response.json, hbody,
    pure_run, hs, hu, he, liftExcept, jsOr]
  cases hok : r.ok with
  | false => simp [Js.bind]
  | true =>
    rcases hfail with h | h | h
    · rw [hok] at h
      cases h
    · simp [Js.bind, h s hs]
    · cases hts : truthy s <;> simp [Js.bind, h u hu, hts]

/-- C12 (amended) for a wrong password: the server's `Invalid credentials` is returned
verbatim. -/
theorem login_failure_is_reported_witness :
    ∃ error, getProp (.obj [("success", .bool false), ("error", .str "Invalid credentials")])
        "error" = .ok error ∧
      (authAPI.login wrongPassword (.str "user@example.com") (.str "wrong-password")
        signedOutWorld).1 =
        .ok (.obj [("success", .bool false),
          ("error", if truthy error then error else .str "Login failed")]) ∧
      (authAPI.login wrongPassword (.str "user@example.com") (.str "wrong-password")
        signedOutWorld).2.localStorage = signedOutWorld.localStorage :=
  login_failure_is_reported wrongPassword (.str "user@example.com") (.str "wrong-password")
    signedOutWorld
    { status := 401,
      body := some (.obj [("success", .bool false), ("error", .str "Invalid credentials")]) }
    (.obj [("success", .bool false), ("error", .str "Invalid credentials")]) rfl rfl
    (by simp) (by simp) (Or.inl rfl)

theorem authLogout_run (net : Backend) (w : World) :
    (Auth.logout net w).1 = .ok () ∧ Auth.cleared (Auth.logout net w).2.localStorage ∧
      (Auth.logout net w).2.href = "login.html" := by
  unfold Auth.logout jsFinally
  simp only [jsTry_run, bind_run, Js.bind, Auth.getToken, getItem]
  cases hting : itemTruthy (w.localStorage "think_auth_token") with
  | false =>
    simp [Auth.clearToken, Js.bind, removeItem, setHref, Auth.cleared, Storage.removeItem]
  | true =>
    simp only [if_true, bind_run, Js.bind, fetch]
    generalize net (w.sent ++ _) = out
    cases out with
    | none =>
      simp [Auth.clearToken, Js.bind, removeItem, setHref, Auth.cleared, Storage.removeItem]
    | some r =>
      simp [Auth.clearToken, Js.bind, removeItem, setHref, Auth.cleared, Storage.removeItem]

/-- C13: for every prior storage state and every outcome of the backend call, after
logout the access token, refresh token and user snapshot keys are all absent: for
`authAPI.logout`, and for the legacy `Auth.logout` (on its own three keys) whatever its
`POST /auth/logout` is answered, a 500 and a rejected fetch included; neither throws. -/
theorem logout_clears_storage (net : Backend) (w : World) :
    (authAPI.logout w).1 = .ok () ∧ cleared (authAPI.logout w).2.localStorage ∧
      (Auth.logout net w).1 = .ok () ∧ Auth.cleared (Auth.logout net w).2.localStorage :=
  ⟨rfl, wiped_cleared w.localStorage, (authLogout_run net w).1, (authLogout_run net w).2.1⟩

/-- C14 (the code at its failing input): with the access token `A1` stored,
`authAPI.logout` clears the storage and issues no request at all, so no
`POST /auth/logout` reaches the backend. -/
theorem authAPI_logout_sends_nothing :
    signedInWorld.localStorage "auth_token" = some "A1" ∧
      (authAPI.logout signedInWorld).2.sent = [] ∧
      cleared (authAPI.logout signedInWorld).2.localStorage := by
  decide

/-- C15: for every signup input, every prior storage state and every response of the
signup endpoint (a successful one included), `authAPI.signup` leaves the whole
`localStorage`, so the access token, the refresh token and the user snapshot, exactly as
it was. -/
theorem signup_leaves_storage (net : Backend) (signupData : JVal) (w : World) :
    (authAPI.signup net signupData w).2.localStorage = w.localStorage := by
  unfold authAPI.signup
  simp only [bind_run, Js.bind]
  cases h1 : getProp signupData "email" with
  | error e => simp [liftExcept, jsThrow]
  | ok email =>
    cases h2 : getProp signupData "password" with
    | error e => simp [liftExcept, jsThrow]
    | ok password =>
      cases h3 : getProp signupData "referralCode" with
      | error e => simp [liftExcept, jsThrow]
      | ok referralCode =>
        cases h4 : getProp signupData "fullName" with
        | error e => simp [liftExcept, jsThrow]
        | ok fullName =>
          simp only [liftExcept, pure_run, fetch]
          generalize net (w.sent ++ _) = out
          cases out with
          | none => simp
          | some r =>
            simp only [Response.json]
            cases r.body with
            | none => simp [jsThrow]
            | some data =>
              simp only [pure_run]
              cases r.ok with
              | true =>
                cases getProp data "message" <;> simp [liftExcept, jsThrow, Js.bind]
              | false =>
                cases getProp data "error" <;> simp [liftExcept, jsThrow, Js.bind]

theorem settle_ok (r : Response) (w : World) (v : JVal) (hok : r.ok = true)
    (hbody : r.body = some v) : settle r w = (.ok v, w) := by
  simp [settle, Js.bind, Response.json, hbody, hok]

theorem settle_malformed (r : Response) (w : World) (hbody : r.body = none) :
    settle r w = (.error .syntaxError, w) := by
  simp [settle, Js.bind, Response.json, hbody, jsThrow]

theorem settle_not_ok (r : Response) (w : World) (data error : JVal) (hok : r.ok = false)
    (hbody : r.body = some data) (he : getProp data "error" = .ok error) :
    settle r w =
      (.error (.error (toStr (if truthy error then error else .str "Request failed"))), w) := by
  simp [settle, Js.bind, Response.json, hbody, hok, he, liftExcept, jsThrow, jsOr]

theorem settle_ok_inv (r : Response) (w : World) (v : JVal)
    (h : (settle r w).1 = .ok v) : r.ok = true ∧ r.body = some v := by
  cases hbody : r.body with
  | none => simp [settle_malformed r w hbody] at h
  | some data =>
    cases hok : r.ok with
    | true =>
      rw [settle_ok r w data hok hbody] at h
      simp at h
      simp [h]
    | false =>
      cases he : getProp data "error" with
      | ok error => simp [settle_not_ok r w data error hok hbody he] at h
      | error e =>
        simp [settle, Js.bind, Response.json, hbody, hok, he, liftExcept, jsThrow] at h

/-- An `apiRequest` call that has a final response ends with the last step on it. -/
theorem apiRequest_of_final (net : Backend) (endpoint : String) (options : Options)
    (w : World) (r : Response) (h : FinalResponse net endpoint options w r) :
    ∃ w', apiRequest net endpoint options w = settle r w' := by
  rcases h with ⟨h1, hst⟩ | ⟨r1, user, w2, h1, hst, href, h3⟩
  · exact ⟨_, apiRequest_direct net endpoint options w r h1 hst⟩
  · refine ⟨{ w2 with sent := w2.sent ++
      [retryRequest endpoint options w (templateText (w2.localStorage "auth_token"))] }, ?_⟩
    rw [apiRequest_retried net endpoint options w w2 r1 user h1 hst href, h3]

/-- C16 (as stated, refuted): with a final response 500 whose body is not valid JSON,
`apiRequest` fails with the `SyntaxError` of `response.json()`, not with an error carrying
the generic `Request failed`; and with a final response 500 whose JSON body is `null` it
fails with a `TypeError` (at the read of `data.error`). -/
theorem apiRequest_failure_not_always_request_failed :
    (apiRequest malformed "/api/profile" {} signedInWorld).1 = .error .syntaxError ∧
      (apiRequest nullBody500 "/api/profile" {} signedInWorld).1 = .error .typeError ∧
      Thrown.syntaxError ≠ .error "Request failed" ∧
      Thrown.typeError ≠ .error "Request failed" :=
  ⟨rfl, rfl, by decide, by decide⟩

/-- C16 (amended): for every `apiRequest` call whose final response (the first one, or
the retry after a recovered 401) has a non-2xx status and a JSON body `data` other than
`null` (so that `data.error` can be read), the call throws an `Error` whose message is
`data.error` when that is a non-empty string, and the generic `Request failed` when
`data.error` is absent or falsy; when the body of the final response is not valid JSON,
the call fails with the `SyntaxError` of `response.json()`. -/
theorem apiRequest_reports_failure (net : Backend) (endpoint : String) (options : Options)
    (w : World) (r : Response) (hfinal : FinalResponse net endpoint options w r) :
    (∀ data, r.ok = false → r.body = some data →
      (∀ message, getProp data "error" = .ok (.str message) → message ≠ "" →
        (apiRequest net endpoint options w).1 = .error (.error message)) ∧
      (∀ error, getProp data "error" = .ok error → truthy error = false →
        (apiRequest net endpoint options w).1 = .error (.error "Request failed"))) ∧
    (r.body = none → (apiRequest net endpoint options w).1 = .error .syntaxError) := by
  obtain ⟨w', hrun⟩ := apiRequest_of_final net endpoint options w r hfinal
  rw [hrun]
  constructor
  · intro data hok hbody
    constructor
    · intro message he hne
      rw [settle_not_ok r w' data (.str message) hok hbody he]
      simp [truthy, hne, toStr]
    · intro error he hfalsy
      rw [settle_not_ok r w' data error hok hbody he]
      simp [hfalsy, toStr]
  · intro hbody
    rw [settle_malformed r w' hbody]

/-- C16 (amended) against a backend that answers 500 with `\x7b error: "Boom" \x7d`: the
call throws `Error('Boom')`. -/
theorem apiRequest_reports_failure_witness :
    (apiRequest failing "/api/profile" {} signedInWorld).1 = .error (.error "Boom") :=
  ((apiRequest_reports_failure failing "/api/profile" {} signedInWorld
    { status := 500, body := some (.obj [("error", .str "Boom")]) }
    (Or.inl ⟨rfl, by decide⟩)).1 (.obj [("error", .str "Boom")]) rfl rfl).1 "Boom" rfl
    (by decide)

/-- C17: `apiRequest` returns a value `v` (rather than throwing) if and only if its final
response (the first one, or the retry after a successful refresh) has a 2xx status and a
body that parses as JSON, and `v` is that parsed body. -/
theorem apiRequest_returns_iff (net : Backend) (endpoint : String) (options : Options)
    (w : World) (v : JVal) :
    (apiRequest net endpoint options w).1 = .ok v ↔
      ∃ r, FinalResponse net endpoint options w r ∧ r.ok = true ∧ r.body = some v := by
  constructor
  · intro h
    cases h1 : net (w.sent ++ [firstRequest endpoint options w]) with
    | none =>
      rw [apiRequest_rejected net endpoint options w h1] at h
      simp at h
    | some r1 =>
      by_cases hst : r1.status = 401
      · rcases refreshSession_cases net (afterFirst endpoint options w) with
          ⟨_, hr⟩ | ⟨t, ht, hne, hr | ⟨r, data, user, a, b, _, _, _, _, _, hr⟩⟩
        · rw [apiRequest_expired net endpoint options w _ r1 h1 hst hr] at h
          simp at h
        · rw [apiRequest_expired net endpoint options w _ r1 h1 hst hr] at h
          simp at h
        · rw [apiRequest_retried net endpoint options w _ r1 user h1 hst hr] at h
          split at h
          · rename_i r3 h3
            obtain ⟨hok, hbody⟩ := settle_ok_inv _ _ v h
            exact ⟨r3, Or.inr ⟨r1, user, _, h1, hst, hr, h3⟩, hok, hbody⟩
          · simp at h
      · rw [apiRequest_direct net endpoint options w r1 h1 hst] at h
        obtain ⟨hok, hbody⟩ := settle_ok_inv _ _ v h
        exact ⟨r1, Or.inl ⟨h1, hst⟩, hok, hbody⟩
  · rintro ⟨r, hfinal, hok, hbody⟩
    obtain ⟨w', hrun⟩ := apiRequest_of_final net endpoint options w r hfinal
    rw [hrun, settle_ok r w' v hok hbody]

/-- C18: for every `apiRequest` call whose first response has a status other than 401,
exactly one network call is made (the first request, no refresh call), and the
`localStorage`, so the access token, the refresh token and the user snapshot, and the
page address are unchanged. -/
theorem apiRequest_non_401_is_single_call (net : Backend) (endpoint : String)
    (options : Options) (w : World) (r1 : Response)
    (h1 : net (w.sent ++ [firstRequest endpoint options w]) = some r1)
    (hst : r1.status ≠ 401) :
    (apiRequest net endpoint options w).2.sent = w.sent ++ [firstRequest endpoint options w] ∧
      (apiRequest net endpoint options w).2.localStorage = w.localStorage ∧
      (apiRequest net endpoint options w).2.href = w.href := by
  rw [apiRequest_direct net endpoint options w r1 h1 hst, settle_world]
  exact ⟨rfl, rfl, rfl⟩

/-- C18 against a backend that answers 500: one call, storage untouched. -/
theorem apiRequest_non_401_is_single_call_witness :
    (apiRequest failing "/api/profile" {} signedInWorld).2.sent =
        [firstRequest "/api/profile" {} signedInWorld] ∧
      (apiRequest failing "/api/profile" {} signedInWorld).2.localStorage =
        signedInWorld.localStorage :=
  have h := apiRequest_non_401_is_single_call failing "/api/profile" {} signedInWorld
    { status := 500, body := some (.obj [("error", .str "Boom")]) } rfl (by decide)
  ⟨h.1, h.2.1⟩

/-- C19: for every `apiRequest` call whose first network call fails at transport level
(the fetch rejects), the call fails at once with that rejection: the trace is the first
request alone (no second request, no refresh call) and the storage is unchanged. -/
theorem apiRequest_transport_failure_is_not_retried (net : Backend) (endpoint : String)
    (options : Options) (w : World)
    (h1 : net (w.sent ++ [firstRequest endpoint options w]) = none) :
    (apiRequest net endpoint options w).1 = .error .networkError ∧
      (apiRequest net endpoint options w).2.sent = w.sent ++ [firstRequest endpoint options w] ∧
      (apiRequest net endpoint options w).2.localStorage = w.localStorage := by
  rw [apiRequest_rejected net endpoint options w h1]
  exact ⟨rfl, rfl, rfl⟩

/-- C19 on a transport that rejects every call. -/
theorem apiRequest_transport_failure_is_not_retried_witness :
    (apiRequest offline "/api/profile" {} signedInWorld).1 = .error .networkError ∧
      (apiRequest offline "/api/profile" {} signedInWorld).2.sent =
        [firstRequest "/api/profile" {} signedInWorld] ∧
      (apiRequest offline "/api/profile" {} signedInWorld).2.localStorage =
        signedInWorld.localStorage :=
  apiRequest_transport_failure_is_not_retried offline "/api/profile" {} signedInWorld rfl

theorem getHeader_spread_absent (k : String) (extra base : Headers)
    (he : getHeader k extra = none) :
    getHeader k (spreadHeaders base extra) = getHeader k base := by
  unfold spreadHeaders
  induction extra generalizing base with
  | nil => rfl
  | cons p rest ih =>
    obtain ⟨k', v'⟩ := p
    have hk : k' ≠ k := by
      intro hk
      simp [getHeader, hk] at he
    have hrest : getHeader k rest = none := by
      simpa [getHeader, hk] using he
    simp only [List.foldl_cons]
    rw [ih _ hrest, getHeader_setHeader_ne k k' v' base hk]

theorem buildConfig_contentType (options : Options) (token : Option String)
    (hopt : getHeader "Content-Type" (options.headers.getD []) = none) :
    getHeader "Content-Type" (buildConfig options token).headers = some "application/json" := by
  have hbase : getHeader "Content-Type"
      (spreadHeaders [("Content-Type", "application/json")] (options.headers.getD [])) =
      some "application/json" := by
    rw [getHeader_spread_absent _ _ _ hopt]
    simp [getHeader]
  unfold buildConfig
  split
  · simp only
    rw [getHeader_setHeader_ne _ _ _ _ (by decide)]
    exact hbase
  · exact hbase

/-- C20 (as stated, refuted): an `apiRequest` call whose options supply a multipart/form
body and no headers sends its request with `Content-Type: application/json`. -/
theorem apiRequest_form_body_keeps_json_content_type :
    (apiRequest renewing "/api/resume/upload"
        { method := some "POST", body := some (.formData [("resume", "cv.pdf")]) }
        signedInWorld).2.sent.map
        (fun q => (q.config.body, getHeader "Content-Type" q.config.headers)) =
      [(some (.formData [("resume", "cv.pdf")]), some "application/json")] := by
  decide

/-- C20 (amended): for every `apiRequest` call with no caller-supplied `Content-Type`,
whatever its body (a multipart/form body included), the first request and its re-issue
carry `Content-Type: application/json`; the multipart upload `profileAPI.uploadResume`
does not go through `apiRequest`: it sends one request, with the form body and no
`Content-Type` header. -/
theorem content_type_is_json_except_upload (net : Backend) (endpoint : String)
    (options : Options) (w : World)
    (hopt : getHeader "Content-Type" (options.headers.getD []) = none) :
    getHeader "Content-Type" (firstRequest endpoint options w).config.headers =
        some "application/json" ∧
      (∀ token, getHeader "Content-Type" (retryRequest endpoint options w token).config.headers =
        some "application/json") ∧
      (∀ file, (profileAPI.uploadResume net file w).2.sent = w.sent ++ [uploadRequest file w] ∧
        (uploadRequest file w).config.body = some (.formData [("resume", file)]) ∧
        getHeader "Content-Type" (uploadRequest file w).config.headers = none) := by
  refine ⟨buildConfig_contentType options _ hopt, ?_, ?_⟩
  · intro token
    simp only [retryRequest]
    rw [getHeader_setHeader_ne _ _ _ _ (by decide)]
    exact buildConfig_contentType options _ hopt
  · intro file
    refine ⟨?_, rfl, by simp [uploadRequest, getHeader]⟩
    simp only [profileAPI.uploadResume, bind_run, Js.bind, getToken, getItem, fetch,
      uploadRequest]
    generalize net (w.sent ++ _) = out
    cases out with
    | none => simp
    | some r =>
      simp only [Response.json]
      cases r.body <;> simp [jsThrow]

/-- C20 (amended) for a JSON body sent from the signed-in page. -/
theorem content_type_is_json_except_upload_witness :
    getHeader "Content-Type" (firstRequest "/api/profile"
        { method := some "PUT", body := some (.text "\x7b\x7d") } signedInWorld).config.headers =
        some "application/json" ∧
      getHeader "Content-Type" (uploadRequest "cv.pdf" signedInWorld).config.headers = none :=
  have h := content_type_is_json_except_upload renewing "/api/profile"
    { method := some "PUT", body := some (.text "\x7b\x7d") } signedInWorld rfl
  ⟨h.1, (h.2.2 "cv.pdf").2.2⟩

/-- C21: for all strings `a` and `r`, after `setToken(a)` and `setRefreshToken(r)`, a
freshly loaded page over the same `localStorage` (no other state survives) reads
`getToken() = a` and `getRefreshToken() = r`; `setToken` leaves the refresh token and the
user snapshot as they were, and `setRefreshToken` leaves the access token and the user
snapshot as they were. -/
theorem token_round_trip (a r : String) (w : World) :
    (getToken (reloaded (afterStoring a r w).localStorage)).1 = .ok (some a) ∧
      (getRefreshToken (reloaded (afterStoring a r w).localStorage)).1 = .ok (some r) ∧
      (setToken (.str a) w).2.localStorage "refresh_token" = w.localStorage "refresh_token" ∧
      (setToken (.str a) w).2.localStorage "user_data" = w.localStorage "user_data" ∧
      (setRefreshToken (.str r) w).2.localStorage "auth_token" = w.localStorage "auth_token" ∧
      (setRefreshToken (.str r) w).2.localStorage "user_data" = w.localStorage "user_data" := by
  simp [getToken, getRefreshToken, getItem, reloaded, afterStoring, setToken, setRefreshToken,
    setItem, Storage.setItem, toStr]

/-- C24 (the code at its failing input): called on the signed-out page, where no access
token is stored, `profileAPI.uploadResume` sends its one request with the header
`Authorization: Bearer null`. -/
theorem uploadResume_sends_bearer_null :
    signedOutWorld.localStorage "auth_token" = none ∧
      (profileAPI.uploadResume renewing "cv.pdf" signedOutWorld).2.sent.map
        (fun q => (q.url, getHeader "Authorization" q.config.headers)) =
        [("http://localhost:5001/api/resume/upload", some "Bearer null")] := by
  decide

/-- C28 (as stated, refuted): a signup response with an ok status whose JSON body is
`null` is not reported as a success: `authAPI.signup` throws a `TypeError` (at the read
of `data.message`). -/
theorem signup_throws_on_null_body :
    (authAPI.signup nullBody200 exampleSignup signedOutWorld).1 = .error .typeError := by
  rfl

theorem propOf_eq (v : JVal) (k : String) (hn : v ≠ .null) (hu : v ≠ .undefined) :
    getProp v k = .ok (propOf v k) := by
  cases v <;> simp_all [getProp, propOf]

/-- C28 (amended): for every signup response that carries a JSON body `data` other than
`null`, `authAPI.signup` reports `\x7b success: true, message: data.message \x7d` exactly
when the HTTP status is ok, whatever `success` field the body has, and otherwise reports
`\x7b success: false, error \x7d` with `data.error` when it is truthy and `Signup failed`
when not. -/
theorem signup_reports_by_status (net : Backend) (signupData : JVal) (w : World)
    (r : Response) (data : JVal)
    (hsd : signupData ≠ .null) (hsu : signupData ≠ .undefined)
    (hnet : net (w.sent ++ [signupRequest signupData]) = some r)
    (hbody : r.body = some data) (hnull : data ≠ .null) (hundef : data ≠ .undefined) :
    (r.ok = true →
      (authAPI.signup net signupData w).1 =
        .ok (.obj [("success", .bool true), ("message", propOf data "message")])) ∧
    (r.ok = false →
      (authAPI.signup net signupData w).1 =
        .ok (.obj [("success", .bool false),
          ("error", if truthy (propOf data "error") then propOf data "error"
            else .str "Signup failed")])) := by
  simp only [signupRequest] at hnet
  constructor
  · intro hok
    simp only [authAPI.signup, bind_run, Js.bind, propOf_eq signupData _ hsd hsu, liftExcept,
      pure_run, fetch_some _ _ _ _ _ hnet, Response.json, hbody, hok, if_true,
      propOf_eq data _ hnull hundef]
  · intro hok
    simp only [authAPI.signup, bind_run, Js.bind, propOf_eq signupData _ hsd hsu, liftExcept,
      pure_run, fetch_some _ _ _ _ _ hnet, Response.json, hbody, hok, Bool.false_eq_true,
      if_false, propOf_eq data _ hnull hundef, jsOr]

/-- C28 (amended) against an ok response whose body says `success: false`: it is reported
as a success with the body's message. -/
theorem signup_reports_by_status_witness :
    (authAPI.signup okButUnsuccessful exampleSignup signedOutWorld).1 =
      .ok (.obj [("success", .bool true), ("message", .str "Referral code rejected")]) :=
  (signup_reports_by_status okButUnsuccessful exampleSignup signedOutWorld
    { status := 200,
      body := some (.obj [("success", .bool false), ("message", .str "Referral code rejected")]) }
    (.obj [("success", .bool false), ("message", .str "Referral code rejected")])
    (by simp [exampleSignup]) (by simp [exampleSignup]) rfl rfl (by simp) (by simp)).1 rfl

/-- C30: the first request `apiRequest` sends depends only on the endpoint, the options
and the stored access token: for two worlds that hold the same access token (whatever
their refresh tokens, user snapshots and backends), the two calls send the same first
request. And the stored refresh token goes nowhere else: every request the call sends is
the one refresh call (the `POST` to `/auth/refresh`, whose body is the JSON text of the
stored refresh token), or the first request or its re-issue, and these two are the ones
computed from the other world, which holds another refresh token and snapshot, and from
the access token of a session the backend returned. -/
theorem first_request_ignores_refresh_token (net net' : Backend) (endpoint : String)
    (options : Options) (w w' : World)
    (h : w.localStorage "auth_token" = w'.localStorage "auth_token") :
    (∃ q, (∃ rest, (apiRequest net endpoint options w).2.sent = w.sent ++ q :: rest) ∧
      (∃ rest, (apiRequest net' endpoint options w').2.sent = w'.sent ++ q :: rest)) ∧
    ∃ requests, (apiRequest net endpoint options w).2.sent = w.sent ++ requests ∧
      ∀ q ∈ requests,
        q = firstRequest endpoint options w' ∨
        (∃ t, w.localStorage "refresh_token" = some t ∧ q = refreshRequest t ∧
          q.url = API_BASE_URL ++ "/auth/refresh" ∧ q.config.method = some "POST" ∧
          q.config.body =
            (jsonStringify (.obj [("refresh_token", .str t)])).map Body.text) ∨
        ∃ sent r data user a, net sent = some r ∧ r.body = some data ∧
          getProp data "user" = .ok user ∧
          getProp (getPropOpt user "session") "access_token" = .ok a ∧
          q = retryRequest endpoint options w' (toStr a) := by
  have hq : firstRequest endpoint options w = firstRequest endpoint options w' := by
    simp [firstRequest, h]
  have hr : ∀ token, retryRequest endpoint options w token =
      retryRequest endpoint options w' token := by
    intro token
    simp [retryRequest, h]
  refine ⟨⟨firstRequest endpoint options w, apiRequest_sent_first net endpoint options w, ?_⟩,
    ?_⟩
  · rw [hq]
    exact apiRequest_sent_first net' endpoint options w'
  · rcases apiRequest_trace_token net endpoint options w with
      ht | ⟨t, ht, _, ht2 | ⟨sent, r, data, user, a, hn, hb, hu, ha, ht3⟩⟩
    · refine ⟨_, ht, ?_⟩
      intro q hmem
      simp only [List.mem_singleton] at hmem
      exact Or.inl (hmem.trans hq)
    · refine ⟨_, ht2, ?_⟩
      intro q hmem
      simp only [List.mem_cons, List.mem_singleton, List.not_mem_nil, or_false] at hmem
      rcases hmem with hmem | hmem
      · exact Or.inl (hmem.trans hq)
      · exact Or.inr (Or.inl ⟨t, ht, hmem, by rw [hmem]; exact ⟨rfl, rfl, rfl⟩⟩)
    · refine ⟨_, ht3, ?_⟩
      intro q hmem
      simp only [List.mem_cons, List.mem_singleton, List.not_mem_nil, or_false] at hmem
      rcases hmem with hmem | hmem | hmem
      · exact Or.inl (hmem.trans hq)
      · exact Or.inr (Or.inl ⟨t, ht, hmem, by rw [hmem]; exact ⟨rfl, rfl, rfl⟩⟩)
      · exact Or.inr (Or.inr ⟨sent, r, data, user, a, hn, hb, hu, ha, hmem.trans (hr _)⟩)

/-- C30 for the page `A1`/`R1` and a page that holds `A1` with another refresh token and
a user snapshot. -/
theorem first_request_ignores_refresh_token_witness :
    signedInWorld.localStorage "auth_token" = otherSession.localStorage "auth_token" ∧
    (∃ q, (∃ rest, (apiRequest expiredOnce "/api/profile" {} signedInWorld).2.sent =
        signedInWorld.sent ++ q :: rest) ∧
      (∃ rest, (apiRequest rejecting "/api/profile" {} otherSession).2.sent =
        otherSession.sent ++ q :: rest)) ∧
    ∃ requests, (apiRequest expiredOnce "/api/profile" {} signedInWorld).2.sent =
        signedInWorld.sent ++ requests ∧
      ∀ q ∈ requests,
        q = firstRequest "/api/profile" {} otherSession ∨
        (∃ t, signedInWorld.localStorage "refresh_token" = some t ∧ q = refreshRequest t ∧
          q.url = API_BASE_URL ++ "/auth/refresh" ∧ q.config.method = some "POST" ∧
          q.config.body =
            (jsonStringify (.obj [("refresh_token", .str t)])).map Body.text) ∨
        ∃ sent r data user a, expiredOnce sent = some r ∧ r.body = some data ∧
          getProp data "user" = .ok user ∧
          getProp (getPropOpt user "session") "access_token" = .ok a ∧
          q = retryRequest "/api/profile" {} otherSession (toStr a) :=
  ⟨rfl, first_request_ignores_refresh_token expiredOnce rejecting "/api/profile" {}
    signedInWorld otherSession rfl⟩

theorem authRefreshSession_succeeds (net : Backend) (w : World) (t : String) (r : Response)
    (data s user session a b : JVal)
    (ht : w.localStorage "think_refresh_token" = some t) (hne : t ≠ "")
    (hnet : net (w.sent ++ [Auth.refreshRequest t]) = some r) (hok : r.ok = true)
    (hbody : r.body = some data)
    (hs : getProp data "success" = .ok s) (hts : truthy s = true)
    (hu : getProp data "user" = .ok user) (htu : truthy user = true)
    (hse : getProp user "session" = .ok session) (htse : truthy session = true)
    (ha : getProp session "access_token" = .ok a)
    (hb : getProp session "refresh_token" = .ok b) :
    Auth.refreshSession net w =
      (.ok (successWith user),
       { localStorage :=
           ((w.localStorage.setItem "think_auth_token" (toStr a)).setItem "think_refresh_token"
             (toStr b)).setItem "think_user_data" ((jsonStringify user).getD "undefined")
         href := w.href
         sent := w.sent ++ [Auth.refreshRequest t] }) := by
  have htr : itemTruthy (some t) = true := by simp [itemTruthy, hne]
  simp only [Auth.refreshRequest] at hnet ⊢
  unfold Auth.refreshSession
  simp only [jsTry_run]
  simp only [bind_run, Js.bind, Auth.getRefreshToken, getItem, ht, htr, templateText,
    Bool.not_true, Bool.false_eq_true, if_false, fetch_some _ _ _ _ _ hnet, hok, if_true,
    Response.json, hbody, pure_run, hs, liftExcept, hts, hu, htu, hse, htse, ha, hb,
    Auth.setToken, Auth.setRefreshToken, Auth.setUserData, setItem]

/-- C25: for every call of the legacy `Auth.authenticatedFetch` with a (non-empty) token
stored in which the first response is 401, the refresh succeeds and the re-issued request
is answered 401 again, the call throws `Error('Session expired')`, the access token,
refresh token and user data keys are removed, the page is sent to `login.html`, and the
trace is the first request, the refresh call and the one re-issue (no third request).
When no token is stored (absent or empty) the call throws `Error('Not authenticated')`
and leaves the world as it was: no network call. -/
theorem authenticatedFetch_gives_up_after_second_401 (net : Backend) (endpoint : String)
    (options : Options) (w : World) :
    (∀ (tok t : String) (r1 r2 r3 : Response) (data s user session a b : JVal),
      w.localStorage "think_auth_token" = some tok → tok ≠ "" →
      w.localStorage "think_refresh_token" = some t → t ≠ "" →
      net (w.sent ++ [Auth.firstRequest endpoint options w]) = some r1 → r1.status = 401 →
      net (w.sent ++ [Auth.firstRequest endpoint options w, Auth.refreshRequest t]) = some r2 →
      r2.ok = true → r2.body = some data →
      getProp data "success" = .ok s → truthy s = true →
      getProp data "user" = .ok user → truthy user = true →
      getProp user "session" = .ok session → truthy session = true →
      getProp session "access_token" = .ok a → getProp session "refresh_token" = .ok b →
      net (w.sent ++ [Auth.firstRequest endpoint options w, Auth.refreshRequest t,
        Auth.retryRequest endpoint options w (toStr a)]) = some r3 → r3.status = 401 →
      (Auth.authenticatedFetch net endpoint options w).1 = .error (.error "Session expired") ∧
        Auth.cleared (Auth.authenticatedFetch net endpoint options w).2.localStorage ∧
        (Auth.authenticatedFetch net endpoint options w).2.href = "login.html" ∧
        (Auth.authenticatedFetch net endpoint options w).2.sent =
          w.sent ++ [Auth.firstRequest endpoint options w, Auth.refreshRequest t,
            Auth.retryRequest endpoint options w (toStr a)]) ∧
    (itemTruthy (w.localStorage "think_auth_token") = false →
      Auth.authenticatedFetch net endpoint options w = (.error (.error "Not authenticated"), w)) := by
  constructor
  · intro tok t r1 r2 r3 data s user session a b htok htokne ht hne h1 hst h2 hok hbody hs hts hu
      htu hse htse ha hb h3 hst3
    have htr : itemTruthy (some tok) = true := by simp [itemTruthy, htokne]
    simp only [Auth.firstRequest] at h1
    have h2' : net (({ w with sent := w.sent ++ [Auth.firstRequest endpoint options w] } :
        World).sent ++ [Auth.refreshRequest t]) = some r2 := by
      simpa using h2
    have href := authRefreshSession_succeeds net
      { w with sent := w.sent ++ [Auth.firstRequest endpoint options w] } t r2 data s user
      session a b ht hne h2' hok hbody hs hts hu htu hse htse ha hb
    simp only [Auth.firstRequest] at href
    have h3' : net (w.sent ++ [Auth.firstRequest endpoint options w] ++ [Auth.refreshRequest t] ++
        [Auth.retryRequest endpoint options w (toStr a)]) = some r3 := by
      simpa using h3
    simp only [Auth.firstRequest, Auth.retryRequest, Auth.refreshRequest] at h3' href
    have hsucc : getProp (successWith user) "success" = .ok (.bool true) := rfl
    have htb : truthy (.bool true) = true := rfl
    have hnew : templateText (some (toStr a)) = toStr a := rfl
    have hstore : (((w.localStorage.setItem "think_auth_token" (toStr a)).setItem
        "think_refresh_token" (toStr b)).setItem "think_user_data"
        ((jsonStringify user).getD "undefined")) "think_auth_token" = some (toStr a) := by
      simp [Storage.setItem]
    unfold Auth.authenticatedFetch
    simp only [bind_run, Js.bind, Auth.getToken, getItem]
    simp only [htok] at h1 h3' href ⊢
    simp only [htr, Bool.not_true, Bool.false_eq_true, if_false, bind_run, Js.bind,
      fetch_some _ _ _ _ _ h1, hst, if_true, href, hsucc, liftExcept, pure_run, htb, getItem,
      hstore, hnew]
    simp only [fetch_some net _ _ ⟨_, _, _⟩ r3 h3', hst3, if_true, Auth.clearToken, bind_run, Js.bind,
      removeItem, setHref, jsThrow]
    refine ⟨trivial, ?_, trivial, ?_⟩
    · simp [Auth.cleared, Storage.removeItem]
    · simp [Auth.firstRequest, Auth.retryRequest, Auth.refreshRequest, htok]
  · intro hno
    unfold Auth.authenticatedFetch
    simp [Js.bind, Auth.getToken, getItem, hno, jsThrow]

/-- C25 on the legacy page `A1`/`R1` against a backend that refreshes to `A2`/`R2` and
answers both sends 401; and on a page with an empty storage. -/
theorem authenticatedFetch_gives_up_after_second_401_witness :
    ((Auth.authenticatedFetch legacyUnauthorized "/api/profile" {} legacyWorld).1 =
        .error (.error "Session expired") ∧
      Auth.cleared (Auth.authenticatedFetch legacyUnauthorized "/api/profile" {}
        legacyWorld).2.localStorage ∧
      (Auth.authenticatedFetch legacyUnauthorized "/api/profile" {} legacyWorld).2.sent.length =
        3) ∧
    Auth.authenticatedFetch legacyUnauthorized "/api/profile" {} signedOutWorld =
      (.error (.error "Not authenticated"), signedOutWorld) :=
  have h := (authenticatedFetch_gives_up_after_second_401 legacyUnauthorized "/api/profile" {}
    legacyWorld).1 "A1" "R1"
    { status := 401, body := some (.obj [("error", .str "Unauthorized")]) }
    { status := 200, body := some (sessionBody "A2" "R2") }
    { status := 401, body := some (.obj [("error", .str "Unauthorized")]) }
    (sessionBody "A2" "R2") (.bool true)
    (.obj [("session", .obj [("access_token", .str "A2"), ("refresh_token", .str "R2")])])
    (.obj [("access_token", .str "A2"), ("refresh_token", .str "R2")]) (.str "A2") (.str "R2")
    rfl (by decide) rfl (by decide) rfl rfl rfl rfl rfl rfl rfl rfl rfl rfl rfl rfl rfl rfl rfl
  ⟨⟨h.1, h.2.1, by rw [h.2.2.2]; rfl⟩,
    (authenticatedFetch_gives_up_after_second_401 legacyUnauthorized "/api/profile" {}
      signedOutWorld).2 rfl⟩

@[simp] theorem ui_bind_run {α β : Type} (m : Ui α) (f : α → Ui β) (p : Page) :
    (m >>= f) p = Ui.bind m f p := rfl

@[simp] theorem ui_pure_run {α : Type} (a : α) (p : Page) :
    (pure a : Ui α) p = (.ok a, p) := rfl

theorem uiTry_run {α : Type} (body : Ui α) (handler : Thrown → Ui α) (p : Page) :
    uiTry body handler p =
      match body p with
      | (.ok a, p') => (.ok a, p')
      | (.error e, p') => handler e p' := rfl

theorem getUserData_world (parse : String → Except Thrown JVal) (w : World) :
    (getUserData parse w).2 = w := by
  simp only [getUserData, bind_run, Js.bind, getItem]
  split
  · cases parse (templateText (w.localStorage "user_data")) <;> simp [liftExcept, jsThrow]
  · simp

/-- The run of `validateSession` once a token is stored and the cached snapshot reads:
the page before the session check holds the cached snapshot as `user` when it is
truthy. -/
theorem validateSession_run (net : Backend) (parse : String → Except Thrown JVal) (p : Page)
    (cached : JVal) (htok : itemTruthy (p.world.localStorage "auth_token") = true)
    (hcache : (getUserData parse p.world).1 = .ok cached) :
    validateSession net parse p =
      match apiRequest net "/auth/session" {} p.world with
      | (.error _, w') => (.ok (), signedOutPage w')
      | (.ok response, w') =>
        match getProp response "success" with
        | .error _ => (.ok (), signedOutPage w')
        | .ok success =>
          if truthy success then
            match getProp response "user" with
            | .error _ => (.ok (), signedOutPage w')
            | .ok user =>
              if truthy user then (.ok (), validatedPage w' user)
              else (.ok (), unchangedPage w' (if truthy cached then cached else p.user))
          else (.ok (), unchangedPage w' (if truthy cached then cached else p.user)) := by
  have hw := getUserData_world parse p.world
  have hg : getUserData parse p.world = (.ok cached, p.world) := Prod.ext hcache hw
  unfold validateSession
  simp only [ui_bind_run, Ui.bind, liftJs, isAuthenticated, bind_run, Js.bind, getToken,
    getItem, pure_run, htok, Bool.not_true, Bool.false_eq_true, if_false, hg]
  rcases hr : apiRequest net "/auth/session" {} p.world with ⟨res, w'⟩
  cases htc : truthy cached <;>
  · simp only [if_true, if_false, Bool.false_eq_true, setUser, ui_pure_run]
    simp only [ui_bind_run, Ui.bind, ui_pure_run, setUser]
    simp only [uiTry_run]
    simp only [ui_bind_run, Ui.bind, liftJs, hr]
    cases res with
    | error e =>
      simp [Ui.bind, liftJs, removeToken, removeRefreshToken, removeUserData, removeItem,
        setUser, setLoading, wiped, signedOutPage]
    | ok response =>
      simp only
      cases hs : getProp response "success" with
      | error e =>
        simp [liftExcept, jsThrow, Ui.bind, liftJs, removeToken, removeRefreshToken,
          removeUserData, removeItem, setUser, setLoading, wiped, signedOutPage]
      | ok success =>
        simp only [liftExcept, pure_run]
        cases hts : truthy success with
        | false => simp [setLoading, unchangedPage]
        | true =>
          simp only [if_true, ui_bind_run, Ui.bind, liftJs]
          cases hu : getProp response "user" with
          | error e =>
            simp [liftExcept, jsThrow, Ui.bind, liftJs, removeToken, removeRefreshToken,
              removeUserData, removeItem, setUser, setLoading, wiped, signedOutPage]
          | ok user =>
            simp only [liftExcept, pure_run]
            cases htu : truthy user with
            | false => simp [setLoading, unchangedPage]
            | true =>
              simp [Ui.bind, liftJs, setUser, setUserData, setItem, setLoading, validatedPage]

theorem jsonStringify_of_truthy (u : JVal) (h : truthy u = true) :
    ∃ text, jsonStringify u = some text := by
  cases u with
  | bool b => cases b <;> simp [jsonStringify]
  | undefined => simp [truthy] at h
  | _ => simp [jsonStringify]

/-- C22: for every cached user snapshot and every stored (non-empty) access token, if the
session check made on mount (`apiRequest('/auth/session')`) returns a body whose
`success` is truthy and whose `user` is a present (truthy) `u`, then after
`validateSession` the context's `user` is `u` and the stored user snapshot is the JSON
text of `u`, whatever snapshot was cached before; `loading` is cleared and nothing is
thrown. -/
theorem validateSession_supersedes_snapshot (net : Backend)
    (parse : String → Except Thrown JVal) (p : Page) (cached response s u : JVal)
    (htok : itemTruthy (p.world.localStorage "auth_token") = true)
    (hcache : (getUserData parse p.world).1 = .ok cached)
    (hcheck : (apiRequest net "/auth/session" {} p.world).1 = .ok response)
    (hs : getProp response "success" = .ok s) (hts : truthy s = true)
    (hu : getProp response "user" = .ok u) (htu : truthy u = true) :
    (validateSession net parse p).1 = .ok () ∧
      (validateSession net parse p).2.user = u ∧
      (validateSession net parse p).2.world.localStorage "user_data" = jsonStringify u ∧
      (validateSession net parse p).2.loading = false := by
  rw [validateSession_run net parse p cached htok hcache]
  rcases hr : apiRequest net "/auth/session" {} p.world with ⟨res, w'⟩
  rw [hr] at hcheck
  simp only at hcheck
  subst hcheck
  obtain ⟨text, htext⟩ := jsonStringify_of_truthy u htu
  simp [hs, hts, hu, htu, validatedPage, Storage.setItem, htext]

/-- C22 on the page `A1`/`R1` whose session check is answered with the user
`\x7b email: "user@example.com" \x7d`. -/
theorem validateSession_supersedes_snapshot_witness :
    (validateSession sessionValid jsonParse (mounted signedInWorld)).2.user =
        .obj [("email", .str "user@example.com")] ∧
      (validateSession sessionValid jsonParse (mounted signedInWorld)).2.world.localStorage
        "user_data" = jsonStringify (.obj [("email", .str "user@example.com")]) :=
  have h := validateSession_supersedes_snapshot sessionValid jsonParse (mounted signedInWorld)
    .null (.obj [("success", .bool true), ("user", .obj [("email", .str "user@example.com")])])
    (.bool true) (.obj [("email", .str "user@example.com")]) rfl rfl rfl rfl rfl rfl rfl
  ⟨h.2.1, h.2.2.1⟩

/-- C26 (as stated, refuted): on the page `A1`/`R1`, a transport failure of the session
check, and likewise a 500 answer to it, make `validateSession` remove the access token
and the refresh token. -/
theorem validateSession_clears_on_transport_failure :
    signedInWorld.localStorage "auth_token" = some "A1" ∧
      (validateSession offline jsonParse (mounted signedInWorld)).2.world.localStorage
        "auth_token" = none ∧
      (validateSession offline jsonParse (mounted signedInWorld)).2.world.localStorage
        "refresh_token" = none ∧
      (validateSession failing jsonParse (mounted signedInWorld)).2.world.localStorage
        "auth_token" = none ∧
      (validateSession failing jsonParse (mounted signedInWorld)).2.world.localStorage
        "refresh_token" = none := by
  decide

/-- C26 (amended): during session validation on mount, with a token stored and a cached
snapshot that reads, the access token, the refresh token and the user snapshot are
removed (and the context's `user` set to `null`) whenever the session check throws,
whatever it throws: for a 401 that refresh could not recover, and also for a transport
failure or a non-401 error response.  When the check returns a body other than `null`,
the two tokens are left as `apiRequest` left them. -/
theorem validateSession_clears_on_any_failure (net : Backend)
    (parse : String → Except Thrown JVal) (p : Page) (cached : JVal)
    (htok : itemTruthy (p.world.localStorage "auth_token") = true)
    (hcache : (getUserData parse p.world).1 = .ok cached) :
    (∀ e, (apiRequest net "/auth/session" {} p.world).1 = .error e →
      cleared (validateSession net parse p).2.world.localStorage ∧
        (validateSession net parse p).2.user = .null) ∧
    (∀ response, (apiRequest net "/auth/session" {} p.world).1 = .ok response →
      response ≠ .null → response ≠ .undefined →
      (validateSession net parse p).2.world.localStorage "auth_token" =
          (apiRequest net "/auth/session" {} p.world).2.localStorage "auth_token" ∧
        (validateSession net parse p).2.world.localStorage "refresh_token" =
          (apiRequest net "/auth/session" {} p.world).2.localStorage "refresh_token") := by
  rw [validateSession_run net parse p cached htok hcache]
  rcases hr : apiRequest net "/auth/session" {} p.world with ⟨res, w'⟩
  constructor
  · intro e he
    simp only at he
    subst he
    exact ⟨wiped_cleared _, rfl⟩
  · intro response hres hnull hundef
    simp only at hres
    subst hres
    obtain ⟨s, hs⟩ := getProp_of_not_nullish response "success" hnull hundef
    obtain ⟨u, hu⟩ := getProp_of_not_nullish response "user" hnull hundef
    simp only [hs, hu]
    cases truthy s <;> cases truthy u <;>
      simp [unchangedPage, validatedPage, Storage.setItem]

/-- C26 (amended) on the page `A1`/`R1` with the transport down: the three keys are
removed. -/
theorem validateSession_clears_on_any_failure_witness :
    cleared (validateSession offline jsonParse (mounted signedInWorld)).2.world.localStorage ∧
      (validateSession offline jsonParse (mounted signedInWorld)).2.user = .null :=
  (validateSession_clears_on_any_failure offline jsonParse (mounted signedInWorld) .null rfl
    rfl).1 .networkError rfl

/-- C27 (the code at its failing input): once the step-1 Next has created the account
and `currentStep` is 2, `updateStepUI` leaves the Back button enabled and its click
handler takes `currentStep` back to 1, a decrease after the account exists; the Next
handler, run again from there, goes through `createAccount` once more (the Next button
itself stays disabled after `showLoading` until some `showError` enables it); only at
step 3 does Back do nothing. -/
theorem back_click_after_account_creation :
    nextClick true true true 1 = 2 ∧ backDisabled true 2 = false ∧ backClick 2 = 1 ∧
      nextClick true true true (backClick 2) = 2 ∧ backClick 3 = 3 := by
  decide

/-- The comparator of two keys of a linear order is not positive exactly when the keys
are in the order the direction asks for. -/
theorem compare_keys_le_zero {K : Type} [LinearOrder K] (ascending : Bool) (x y : K) :
    (if x < y then (if ascending then (-1 : Int) else 1)
      else if x > y then (if ascending then (1 : Int) else -1) else 0) ≤ 0 ↔
      (if ascending then x ≤ y else y ≤ x) := by
  rcases lt_trichotomy x y with h | h | h
  · have h' : ¬ y < x := not_lt.mpr (le_of_lt h)
    cases ascending <;> simp [h, h', le_of_lt h, not_le.mpr h]
  · subst h
    cases ascending <;> simp
  · have h' : ¬ x < y := not_lt.mpr (le_of_lt h)
    cases ascending <;> simp [h, h', le_of_lt h, not_le.mpr h]

theorem compareAlumni_le_zero (lower : String → String) (parseInt : String → Option Int)
    (sortBy : String) (ascending : Bool) (a b : Alumni) :
    compareAlumni lower parseInt sortBy ascending a b ≤ 0 ↔
      inOrder lower parseInt sortBy ascending a b := by
  unfold compareAlumni inOrder
  by_cases hk : sortBy = "grad_year"
  · simp only [hk, if_true]
    exact compare_keys_le_zero ascending _ _
  · simp only [hk, if_false]
    exact compare_keys_le_zero ascending _ _

theorem inOrder_total (lower : String → String) (parseInt : String → Option Int)
    (sortBy : String) (ascending : Bool) (a b : Alumni) :
    inOrder lower parseInt sortBy ascending a b ∨ inOrder lower parseInt sortBy ascending b a := by
  unfold inOrder
  by_cases hk : sortBy = "grad_year" <;> cases ascending <;> simp only [hk, if_true, if_false,
    Bool.false_eq_true] <;> exact le_total _ _

theorem inOrder_trans (lower : String → String) (parseInt : String → Option Int)
    (sortBy : String) (ascending : Bool) (a b c : Alumni)
    (hab : inOrder lower parseInt sortBy ascending a b)
    (hbc : inOrder lower parseInt sortBy ascending b c) :
    inOrder lower parseInt sortBy ascending a c := by
  unfold inOrder at *
  by_cases hk : sortBy = "grad_year" <;> cases ascending <;>
    simp only [hk, if_true, if_false, Bool.false_eq_true] at * <;>
    first
      | exact le_trans hab hbc
      | exact le_trans hbc hab

/-- The sort of the directory gives a permutation in the order of the keys. -/
theorem arraySort_compareAlumni (lower : String → String) (parseInt : String → Option Int)
    (sortBy : String) (ascending : Bool) (l : List Alumni) :
    (arraySort (compareAlumni lower parseInt sortBy ascending) l).Perm l ∧
      List.Sorted (inOrder lower parseInt sortBy ascending)
        (arraySort (compareAlumni lower parseInt sortBy ascending) l) := by
  unfold arraySort
  refine ⟨List.perm_insertionSort _ l, ?_⟩
  haveI : IsTotal Alumni (fun a b => compareAlumni lower parseInt sortBy ascending a b ≤ 0) :=
    ⟨fun a b => by
      rw [compareAlumni_le_zero, compareAlumni_le_zero]
      exact inOrder_total lower parseInt sortBy ascending a b⟩
  haveI : IsTrans Alumni (fun a b => compareAlumni lower parseInt sortBy ascending a b ≤ 0) :=
    ⟨fun a b c hab hbc => by
      rw [compareAlumni_le_zero] at *
      exact inOrder_trans lower parseInt sortBy ascending a b c hab hbc⟩
  have h := List.sorted_insertionSort
    (fun a b => compareAlumni lower parseInt sortBy ascending a b ≤ 0) l
  exact List.Pairwise.imp (fun hab => (compareAlumni_le_zero lower parseInt sortBy ascending _ _).mp hab) h

/-- C29: for every list of alumni, sort key and direction, the list after `sortAlumni` is
a permutation of the list before and is in order under the chosen key (every element
stands before every later one, so consecutive ones do): by the integer parsed from
`grad_year` (0 when missing or unparsable) when sorting by `grad_year`, and by the
lower-cased string value of the key (empty when missing) otherwise, non-decreasing when
ascending and non-increasing when descending.  The list `HomePage.applyFilters` hands
over is in the same order under its own sort key and direction. -/
theorem sortAlumni_is_sorted_permutation (lower : String → String)
    (parseInt : String → Option Int) (inputs : Inputs) (filteredAlumni : List Alumni) :
    (sortAlumni lower parseInt inputs filteredAlumni).Perm filteredAlumni ∧
      List.Sorted
        (inOrder lower parseInt (chosenSortBy inputs) (inputs.sortAscendingCheckbox.getD true))
        (sortAlumni lower parseInt inputs filteredAlumni) ∧
      ∀ (filters : Filters) (allAlumni result : List Alumni),
        HomePage.applyFilters lower parseInt filters allAlumni = .ok result →
        List.Sorted (inOrder lower parseInt filters.sortBy filters.sortAscending) result := by
  refine ⟨?_, ?_, ?_⟩
  · exact (arraySort_compareAlumni lower parseInt (chosenSortBy inputs)
      (inputs.sortAscendingCheckbox.getD true) filteredAlumni).1
  · exact (arraySort_compareAlumni lower parseInt (chosenSortBy inputs)
      (inputs.sortAscendingCheckbox.getD true) filteredAlumni).2
  · intro filters allAlumni result h
    unfold HomePage.applyFilters at h
    cases hf : filterExcept (HomePage.keeps lower filters) allAlumni with
    | error e => simp [hf, bind, Except.bind] at h
    | ok filtered =>
      simp only [hf, bind, Except.bind, pure, Except.pure, Except.ok.injEq] at h
      rw [← h]
      exact (arraySort_compareAlumni lower parseInt filters.sortBy filters.sortAscending
        filtered).2

/-- C23 (the code at its failing input): for the list of Bob and Ann, where Ann has no
`role_title`, and the title query `eng`, `HomePage.applyFilters` returns Ann and Bob
sorted by name, while the deprecated `applyFilters` throws a `TypeError` at
`alumni.role_title.toLowerCase()` and produces no list. -/
theorem applyFilters_diverge_on_missing_role_title :
    HomePage.applyFilters asciiLower parseIntDecimal titleQueryFilters [bob, ann] =
        .ok [ann, bob] ∧
      Legacy.applyFilters asciiLower parseIntDecimal titleQueryInputs [bob, ann] =
        .error .typeError :=
  ⟨rfl, rfl⟩

/-- C29 on the list of Bob and Ann sorted by `grad_year`, descending, and on the React
list for the title query `eng`. -/
theorem sortAlumni_is_sorted_permutation_witness :
    (sortAlumni asciiLower parseIntDecimal
        { titleQueryInputs with sortBySelect := some "grad_year", sortAscendingCheckbox := some false }
        [bob, ann]).Perm [bob, ann] ∧
      List.Sorted (inOrder asciiLower parseIntDecimal "grad_year" false)
        (sortAlumni asciiLower parseIntDecimal
          { titleQueryInputs with sortBySelect := some "grad_year", sortAscendingCheckbox := some false }
          [bob, ann]) ∧
      List.Sorted (inOrder asciiLower parseIntDecimal "name" true) [ann, bob] :=
  have h := sortAlumni_is_sorted_permutation asciiLower parseIntDecimal
    { titleQueryInputs with sortBySelect := some "grad_year", sortAscendingCheckbox := some false }
    [bob, ann]
  ⟨h.1, h.2.1, h.2.2 titleQueryFilters [bob, ann] [ann, bob] rfl⟩

end Gateway
